import Mathlib

/-!
# Toyota safety hooks (`panda/board/safety/safety_toyota.h`)

A shallow embedding of the hooks of `safety_toyota.h` (`toyota_rx_hook`,
`toyota_tx_hook`, `toyota_fwd_hook`, `toyota_init`), of its rule table and
checksum functions and of the state the hooks share, together with the
properties of the hooks that the specification states.

Conventions of the embedding:

* C `int` values are `Int`; every quantity that occurs is far below `2^31`
  (payload bytes are below `2^8`, decoded fields below `2^16`), so no 32-bit
  overflow can take place and no reduction modulo `2^32` is needed, except for
  the `uint32_t` tick arithmetic of `get_ts_elapsed`, which is reduced
  explicitly.
* C `bool` globals are `Bool`; an `int` used as a truth value is compared with `0`.
* The globals of `safety.h` that the hooks read and write are the fields of
  `EngineState`; a hook takes the state and returns the new state together
  with its C return value.
* `TIM2->CNT`, the hardware tick read by `toyota_tx_hook`, is the argument `ts`.
* Helpers of `safety.h` that are not part of `safety_toyota.h` are either
  modelled (their doc comment says so) or taken as an argument of the hook:
  the verdict of `addr_safety_check` is the argument `valid` of
  `toyota_rx_hook` (`toyota_rx_valid` is the verdict of the modelled check on
  the rule table of the file), and `generic_rx_checks` is an argument of it as
  well.
* A sequence of hook calls is a list of `HookCall`s, run by `run` from a
  state; `state0` is the state of the C static initialisers.
* `toyota_tx_hook` and `toyota_rx_update` follow the source statement by
  statement. For the proofs the same code is also given block by block
  (`tx_precheck`, `tx_gas`, `tx_accel`, `tx_steer`, `rx_torque`, ...); the
  theorems `toyota_tx_hook_blocks` and `toyota_rx_update_blocks` show, by
  unfolding alone, that the hooks are the compositions of their blocks.
-/

namespace Toyota

/-! ## Constants (`safety_toyota.h:1-32`) -/

/-- Global torque limit: max torque cmd allowed ever. -/
def TOYOTA_MAX_TORQUE : Int := 1500

/-- Rate based torque limit, ramp up slow. -/
def TOYOTA_MAX_RATE_UP : Int := 10

/-- Rate based torque limit, ramp down fast. -/
def TOYOTA_MAX_RATE_DOWN : Int := 25

/-- Max torque cmd in excess of torque motor. -/
def TOYOTA_MAX_TORQUE_ERROR : Int := 350

/-- Max delta torque allowed for real time checks. -/
def TOYOTA_MAX_RT_DELTA : Int := 375

/-- Ticks (250ms) between real time checks. -/
def TOYOTA_RT_INTERVAL : Nat := 250000

/-- Longitudinal limit, 1.5 m/s2. -/
def TOYOTA_MAX_ACCEL : Int := 1500

/-- Longitudinal limit, -3.0 m/s2. -/
def TOYOTA_MIN_ACCEL : Int := -3000

/-- Longitudinal ISO limit, 2.0 m/s2. -/
def TOYOTA_ISO_MAX_ACCEL : Int := 2000

/-- Longitudinal ISO limit, -3.5 m/s2. -/
def TOYOTA_ISO_MIN_ACCEL : Int := -3500

/-- Threshold of the averaged gas interceptor reading. -/
def TOYOTA_GAS_INTERCEPTOR_THRSLD : Int := 845

/-! ## Frames -/

/-- A parsed CAN frame as the hooks see it through `GET_ADDR`, `GET_BUS`,
`GET_LEN` and `GET_BYTE`: id, bus, length and payload bytes. -/
structure Frame where
  addr : Nat
  bus : Nat
  len : Nat
  payload : List Nat
  deriving DecidableEq, Repr

/-- Modelled from the spec: the macro `GET_ADDR` is not part of
`safety_toyota.h`; it yields the id of the parsed frame. -/
def GET_ADDR (msg : Frame) : Nat := msg.addr

/-- Modelled from the spec: the macro `GET_BUS` is not part of
`safety_toyota.h`; it yields the bus of the parsed frame. -/
def GET_BUS (msg : Frame) : Nat := msg.bus

/-- Modelled from the spec: the macro `GET_LEN` is not part of
`safety_toyota.h`; it yields the length of the parsed frame. -/
def GET_LEN (msg : Frame) : Nat := msg.len

/-- Modelled from the spec: the macro `GET_BYTE` is not part of
`safety_toyota.h`; it yields payload byte `b`, a value in `0..255` for every
frame (a byte that the payload does not hold reads as `0`). -/
def GET_BYTE (msg : Frame) (b : Nat) : Nat := (msg.payload.getD b 0) % 256

/-- An entry `{addr, bus, len}` of a tx allow-list (`CanMsg`). -/
structure CanMsg where
  addr : Nat
  bus : Nat
  len : Nat
  deriving DecidableEq, Repr

/-- The tx allow-list of `safety_toyota.h:32`. -/
def TOYOTA_TX_MSGS : List CanMsg := [⟨0x22E, 0, 5⟩, ⟨0x164, 0, 8⟩]

/-- Modelled from the spec: `msg_allowed` is not part of `safety_toyota.h`;
a frame is allowed when its (id, bus, length) triple is an entry of the
allow-list. -/
def msg_allowed (to_send : Frame) (msg_list : List CanMsg) : Bool :=
  msg_list.any fun m =>
    decide (GET_ADDR to_send = m.addr ∧ GET_BUS to_send = m.bus ∧ GET_LEN to_send = m.len)

/-! ## Shared state -/

/-- The sample window `struct sample_t`: the retained samples, newest first,
and their tracked minimum and maximum. -/
structure sample_t where
  values : List Int
  min : Int
  max : Int
  deriving DecidableEq, Repr

/-- The globals read and written by the hooks. -/
structure EngineState where
  controls_allowed : Bool
  relay_malfunction : Bool
  gas_interceptor_detected : Bool
  gas_interceptor_prev : Int
  gas_pressed : Bool
  brake_pressed : Bool
  cruise_engaged_prev : Bool
  vehicle_moving : Bool
  desired_torque_last : Int
  rt_torque_last : Int
  torque_meas : sample_t
  ts_last : Nat
  unsafe_mode : Nat
  toyota_dbc_eps_torque_factor : Int
  deriving DecidableEq, Repr

/-! ## Helpers of `safety.h` -/

/-- Modelled from the spec: `to_signed` is not part of `safety_toyota.h`;
the two's-complement interpretation of the low `bits` bits of `d`. -/
def to_signed (d : Int) (bits : Nat) : Int :=
  if d ≥ 2 ^ (bits - 1) then d - 2 ^ bits else d

/-- Modelled from the spec: `max_limit_check` is not part of
`safety_toyota.h`; the value violates the absolute bound pair when it lies
above the maximum or below the minimum. -/
def max_limit_check (val MAX_VAL MIN_VAL : Int) : Bool :=
  decide (val > MAX_VAL) || decide (val < MIN_VAL)

/-- Modelled from the spec: `dist_to_meas_check` is not part of
`safety_toyota.h`; the new command may rise above the previous one (or above
zero) by at most the rate-up step, must come down by the rate-down step once it
exceeds the measured window by more than the error margin, and symmetrically
for negative commands. -/
def dist_to_meas_check (val val_last : Int) (val_meas : sample_t)
    (MAX_RATE_UP MAX_RATE_DOWN MAX_ERROR : Int) : Bool :=
  let highest_allowed_rl := max val_last 0 + MAX_RATE_UP
  let lowest_allowed_rl := min val_last 0 - MAX_RATE_UP
  let highest_allowed :=
    min highest_allowed_rl (max (val_last - MAX_RATE_DOWN) (max val_meas.max 0 + MAX_ERROR))
  let lowest_allowed :=
    max lowest_allowed_rl (min (val_last + MAX_RATE_DOWN) (min val_meas.min 0 - MAX_ERROR))
  decide (val < lowest_allowed) || decide (val > highest_allowed)

/-- Modelled from the spec: `rt_rate_limit_check` is not part of
`safety_toyota.h`; the new command must not deviate from the periodically
refreshed reference command (or from zero) by more than the fixed delta. -/
def rt_rate_limit_check (val val_last MAX_RT_DELTA : Int) : Bool :=
  let highest_val := max val_last 0 + MAX_RT_DELTA
  let lowest_val := min val_last 0 - MAX_RT_DELTA
  decide (val < lowest_val) || decide (val > highest_val)

/-- Modelled from the spec: `get_ts_elapsed` is not part of
`safety_toyota.h`; the ticks elapsed from `ts_last` to `ts` on the wrapping
`uint32_t` tick counter. -/
def get_ts_elapsed (ts ts_last : Nat) : Nat :=
  (ts % 2 ^ 32 + 2 ^ 32 - ts_last % 2 ^ 32) % 2 ^ 32

/-- Modelled from the spec: `update_sample` is not part of
`safety_toyota.h`; the new sample enters a rolling history of fixed depth 6
and `min`/`max` become the smallest and largest retained sample. -/
def update_sample (sample : sample_t) (sample_new : Int) : sample_t :=
  let values := sample_new :: sample.values.take 5
  { values := values
    min := values.foldl min sample_new
    max := values.foldl max sample_new }

/-- Modelled from the spec: the flag `UNSAFE_RAISE_LONGITUDINAL_LIMITS_TO_ISO_MAX`
of `unsafe_mode` is not part of `safety_toyota.h`; it is the explicit
unsafe-mode flag that selects the wider ISO bound pair. The properties below
do not depend on which bit it is. -/
def UNSAFE_RAISE_LONGITUDINAL_LIMITS_TO_ISO_MAX : Nat := 8

/-- Modelled from the spec: `generic_rx_checks` is not part of
`safety_toyota.h`. The specification lists the state updates of the inbound
path (section 4.2) and gives this helper none, so `toyota_rx_hook` takes the
helper as an argument and each theorem holds for every helper that meets the
frame condition it states. This instance, used for the concrete evaluations
only, leaves the state as it finds it. -/
def generic_rx_checks (_stock_ecu_detected : Bool) (s : EngineState) : EngineState :=
  s

/-! ## The hooks -/

/-- The macro `TOYOTA_GET_INTERCEPTOR` (`safety_toyota.h:30`): average of the
two interceptor tracks. -/
def TOYOTA_GET_INTERCEPTOR (msg : Frame) : Int :=
  ((((GET_BYTE msg 0 <<< 8) + GET_BYTE msg 1 + (GET_BYTE msg 2 <<< 8) + GET_BYTE msg 3 : Nat) : Int)).tdiv 2

/-- The state updates of `toyota_rx_hook` for a valid bus-0 frame, up to the
call of `generic_rx_checks` (`safety_toyota.h:67-125`). -/
def toyota_rx_update (s : EngineState) (to_push : Frame) : EngineState :=
  let addr := GET_ADDR to_push
  -- get eps motor torque (0.66 factor in dbc)
  let s :=
    if addr = 0x260 then
      let torque_meas_new : Int := (((GET_BYTE to_push 5 <<< 8) ||| GET_BYTE to_push 6 : Nat) : Int)
      let torque_meas_new := to_signed torque_meas_new 16
      -- scale by dbc_factor
      let torque_meas_new := (torque_meas_new * s.toyota_dbc_eps_torque_factor).tdiv 100
      -- update array of sample
      let tm := update_sample s.torque_meas torque_meas_new
      -- increase torque_meas by 1 to be conservative on rounding
      { s with torque_meas := { tm with min := tm.min - 1, max := tm.max + 1 } }
    else s
  -- enter controls on rising edge of ACC, exit controls on ACC off
  let s :=
    if addr = 0x164 then
      -- 5th bit is CRUISE_ACTIVE
      let cruise_engaged := GET_BYTE to_push 0 &&& 0x20
      let s := if cruise_engaged = 0 then { s with controls_allowed := false } else s
      let s := if cruise_engaged ≠ 0 ∧ s.cruise_engaged_prev = false then
          { s with controls_allowed := true } else s
      let s := { s with cruise_engaged_prev := decide (cruise_engaged ≠ 0) }
      -- sample gas pedal
      if s.gas_interceptor_detected = false then
        { s with gas_pressed := decide (((GET_BYTE to_push 0 >>> 4) &&& 1) = 0) }
      else s
    else s
  -- sample speed
  let s :=
    if addr = 0x158 then
      { s with vehicle_moving := decide ((GET_BYTE to_push 0 ||| GET_BYTE to_push 1) ≠ 0) }
    else s
  let s :=
    if addr = 0x224 ∨ addr = 0x17C then
      let byte := if addr = 0x224 then 0 else 4
      { s with brake_pressed := decide (((GET_BYTE to_push byte <<< 7) &&& 0x80) ≠ 0) }
    else s
  -- sample gas interceptor
  let s :=
    if addr = 0x201 then
      let gas_interceptor := TOYOTA_GET_INTERCEPTOR to_push
      { s with
        gas_interceptor_detected := true
        gas_pressed := decide (gas_interceptor > TOYOTA_GAS_INTERCEPTOR_THRSLD)
        gas_interceptor_prev := gas_interceptor }
    else s
  s

/-- The rx hook (`safety_toyota.h:61-130`). `valid` is the verdict of
`addr_safety_check` on the frame (a helper of `safety.h`) and `s` the state as
that call leaves it; `generic_rx_checks` is the helper called at line 127.
Returns the new state and the verdict. -/
def toyota_rx_hook (generic_rx_checks : Bool → EngineState → EngineState)
    (valid : Bool) (s : EngineState) (to_push : Frame) : EngineState × Bool :=
  if valid = true ∧ GET_BUS to_push = 0 then
    let addr := GET_ADDR to_push
    let s := toyota_rx_update s to_push
    (generic_rx_checks (decide (addr = 0x2E4)) s, valid)
  else (s, valid)

/-- The tx hook (`safety_toyota.h:132-226`). `ts` is the tick `TIM2->CNT`.
Returns the new state and `tx` (1 permit, 0 deny). -/
def toyota_tx_hook (s : EngineState) (ts : Nat) (to_send : Frame) : EngineState × Int :=
  let tx : Int := 1
  let addr := GET_ADDR to_send
  let bus := GET_BUS to_send
  let tx := if msg_allowed to_send TOYOTA_TX_MSGS = false then 0 else tx
  let tx := if s.relay_malfunction = true then 0 else tx
  -- Check if msg is sent on BUS 0
  if bus = 0 then
    -- GAS PEDAL: safety check
    let tx :=
      if addr = 0x200 then
        if s.controls_allowed = false then
          if GET_BYTE to_send 0 ≠ 0 ∨ GET_BYTE to_send 1 ≠ 0 then 0 else tx
        else tx
      else tx
    -- ACCEL: safety check on byte 1-2
    let tx :=
      if addr = 0x343 then
        let desired_accel : Int := (((GET_BYTE to_send 0 <<< 8) ||| GET_BYTE to_send 1 : Nat) : Int)
        let desired_accel := to_signed desired_accel 16
        let tx :=
          if s.controls_allowed = false then
            if desired_accel ≠ 0 then 0 else tx
          else tx
        let violation :=
          if s.unsafe_mode &&& UNSAFE_RAISE_LONGITUDINAL_LIMITS_TO_ISO_MAX ≠ 0 then
            max_limit_check desired_accel TOYOTA_ISO_MAX_ACCEL TOYOTA_ISO_MIN_ACCEL
          else
            max_limit_check desired_accel TOYOTA_MAX_ACCEL TOYOTA_MIN_ACCEL
        if violation = true then 0 else tx
      else tx
    -- STEER: safety check on bytes 2-3
    if addr = 0x2E4 then
      let desired_torque : Int := (((GET_BYTE to_send 1 <<< 8) ||| GET_BYTE to_send 2 : Nat) : Int)
      let desired_torque := to_signed desired_torque 16
      let violation := false
      let r : EngineState × Bool :=
        if s.controls_allowed = true then
          -- *** global torque limit check ***
          let violation := violation ||
            max_limit_check desired_torque TOYOTA_MAX_TORQUE (-TOYOTA_MAX_TORQUE)
          -- *** torque rate limit check ***
          let violation := violation ||
            dist_to_meas_check desired_torque s.desired_torque_last s.torque_meas
              TOYOTA_MAX_RATE_UP TOYOTA_MAX_RATE_DOWN TOYOTA_MAX_TORQUE_ERROR
          -- used next time
          let s := { s with desired_torque_last := desired_torque }
          -- *** torque real time rate limit check ***
          let violation := violation ||
            rt_rate_limit_check desired_torque s.rt_torque_last TOYOTA_MAX_RT_DELTA
          -- every RT_INTERVAL set the new limits
          let ts_elapsed := get_ts_elapsed ts s.ts_last
          let s :=
            if ts_elapsed > TOYOTA_RT_INTERVAL then
              { s with rt_torque_last := desired_torque, ts_last := ts }
            else s
          (s, violation)
        else (s, violation)
      let s := r.1
      let violation := r.2
      -- no torque if controls is not allowed
      let violation :=
        if s.controls_allowed = false ∧ desired_torque ≠ 0 then true else violation
      -- reset to 0 if either controls is not allowed or there's a violation
      let s :=
        if violation = true ∨ s.controls_allowed = false then
          { s with desired_torque_last := 0, rt_torque_last := 0, ts_last := ts }
        else s
      let tx := if violation = true then 0 else tx
      (s, tx)
    else (s, tx)
  else (s, tx)

/-- The forward hook (`safety_toyota.h:235-256`): the destination bus, or
`-1` for no forward. -/
def toyota_fwd_hook (s : EngineState) (bus_num : Int) (to_fwd : Frame) : Int :=
  let bus_fwd : Int := -1
  if s.relay_malfunction = false then
    let bus_fwd := if bus_num = 0 then 2 else bus_fwd
    if bus_num = 2 then
      let addr := GET_ADDR to_fwd
      -- block stock lkas messages and stock acc messages (if OP is doing ACC)
      let is_lkas_msg := decide (addr = 0x2E4) || decide (addr = 0x412) || decide (addr = 0x191)
      -- in TSS2 the camera does ACC as well, so filter 0x343
      let is_acc_msg := decide (addr = 0x343)
      let block_msg := is_lkas_msg || is_acc_msg
      if block_msg = false then 0 else bus_fwd
    else bus_fwd
  else bus_fwd

/-! ## Decoded fields -/

/-- The decoded acceleration command of an `0x343` frame
(`safety_toyota.h:160-161`). -/
def desired_accel (to_send : Frame) : Int :=
  to_signed (((GET_BYTE to_send 0 <<< 8) ||| GET_BYTE to_send 1 : Nat) : Int) 16

/-- The decoded torque command of a `0x2E4` frame (`safety_toyota.h:178-179`). -/
def desired_torque (to_send : Frame) : Int :=
  to_signed (((GET_BYTE to_send 1 <<< 8) ||| GET_BYTE to_send 2 : Nat) : Int) 16

/-! ## The blocks of the tx hook

The same code as in `toyota_tx_hook`, block by block, for the proofs
(`toyota_tx_hook_blocks` shows that the hook is their composition). -/

/-- The tx preconditions (`safety_toyota.h:134-144`): the value of `tx` on
entry to the bus-0 checks. -/
def tx_precheck (s : EngineState) (to_send : Frame) : Int :=
  let tx : Int := 1
  let tx := if msg_allowed to_send TOYOTA_TX_MSGS = false then 0 else tx
  let tx := if s.relay_malfunction = true then 0 else tx
  tx

/-- The GAS PEDAL block (`safety_toyota.h:150-156`) as a function of the
incoming `tx`. -/
def tx_gas (s : EngineState) (to_send : Frame) (tx : Int) : Int :=
  if GET_ADDR to_send = 0x200 then
    if s.controls_allowed = false then
      if GET_BYTE to_send 0 ≠ 0 ∨ GET_BYTE to_send 1 ≠ 0 then 0 else tx
    else tx
  else tx

/-- The ACCEL block (`safety_toyota.h:159-174`) as a function of the incoming
`tx`. -/
def tx_accel (s : EngineState) (to_send : Frame) (tx : Int) : Int :=
  if GET_ADDR to_send = 0x343 then
    let desired_accel : Int := (((GET_BYTE to_send 0 <<< 8) ||| GET_BYTE to_send 1 : Nat) : Int)
    let desired_accel := to_signed desired_accel 16
    let tx :=
      if s.controls_allowed = false then
        if desired_accel ≠ 0 then 0 else tx
      else tx
    let violation :=
      if s.unsafe_mode &&& UNSAFE_RAISE_LONGITUDINAL_LIMITS_TO_ISO_MAX ≠ 0 then
        max_limit_check desired_accel TOYOTA_ISO_MAX_ACCEL TOYOTA_ISO_MIN_ACCEL
      else
        max_limit_check desired_accel TOYOTA_MAX_ACCEL TOYOTA_MIN_ACCEL
    if violation = true then 0 else tx
  else tx

/-- The STEER block (`safety_toyota.h:178-217`): the state it leaves and its
`violation` flag. -/
def tx_steer (s : EngineState) (ts : Nat) (to_send : Frame) : EngineState × Bool :=
  let desired_torque : Int := (((GET_BYTE to_send 1 <<< 8) ||| GET_BYTE to_send 2 : Nat) : Int)
  let desired_torque := to_signed desired_torque 16
  let violation := false
  let r : EngineState × Bool :=
    if s.controls_allowed = true then
      let violation := violation ||
        max_limit_check desired_torque TOYOTA_MAX_TORQUE (-TOYOTA_MAX_TORQUE)
      let violation := violation ||
        dist_to_meas_check desired_torque s.desired_torque_last s.torque_meas
          TOYOTA_MAX_RATE_UP TOYOTA_MAX_RATE_DOWN TOYOTA_MAX_TORQUE_ERROR
      let s := { s with desired_torque_last := desired_torque }
      let violation := violation ||
        rt_rate_limit_check desired_torque s.rt_torque_last TOYOTA_MAX_RT_DELTA
      let ts_elapsed := get_ts_elapsed ts s.ts_last
      let s :=
        if ts_elapsed > TOYOTA_RT_INTERVAL then
          { s with rt_torque_last := desired_torque, ts_last := ts }
        else s
      (s, violation)
    else (s, violation)
  let s := r.1
  let violation := r.2
  let violation :=
    if s.controls_allowed = false ∧ desired_torque ≠ 0 then true else violation
  let s :=
    if violation = true ∨ s.controls_allowed = false then
      { s with desired_torque_last := 0, rt_torque_last := 0, ts_last := ts }
    else s
  (s, violation)

/-- The violation flag of the STEER block while controls are allowed: the
three guards of `safety_toyota.h:187-197` or-ed together. -/
def steer_guards (s : EngineState) (f : Frame) : Bool :=
  max_limit_check (desired_torque f) TOYOTA_MAX_TORQUE (-TOYOTA_MAX_TORQUE)
    || dist_to_meas_check (desired_torque f) s.desired_torque_last s.torque_meas
        TOYOTA_MAX_RATE_UP TOYOTA_MAX_RATE_DOWN TOYOTA_MAX_TORQUE_ERROR
    || rt_rate_limit_check (desired_torque f) s.rt_torque_last TOYOTA_MAX_RT_DELTA

/-! ## The blocks of the rx hook

The same code as in `toyota_rx_update`, block by block, for the proofs
(`toyota_rx_update_blocks` shows that the update is their composition). -/

/-- The eps motor torque block (`safety_toyota.h:70-83`). -/
def rx_torque (s : EngineState) (to_push : Frame) : EngineState :=
  if GET_ADDR to_push = 0x260 then
    let torque_meas_new : Int := (((GET_BYTE to_push 5 <<< 8) ||| GET_BYTE to_push 6 : Nat) : Int)
    let torque_meas_new := to_signed torque_meas_new 16
    let torque_meas_new := (torque_meas_new * s.toyota_dbc_eps_torque_factor).tdiv 100
    let tm := update_sample s.torque_meas torque_meas_new
    { s with torque_meas := { tm with min := tm.min - 1, max := tm.max + 1 } }
  else s

/-- The cruise and gas pedal block (`safety_toyota.h:87-102`). -/
def rx_cruise (s : EngineState) (to_push : Frame) : EngineState :=
  if GET_ADDR to_push = 0x164 then
    let cruise_engaged := GET_BYTE to_push 0 &&& 0x20
    let s := if cruise_engaged = 0 then { s with controls_allowed := false } else s
    let s := if cruise_engaged ≠ 0 ∧ s.cruise_engaged_prev = false then
        { s with controls_allowed := true } else s
    let s := { s with cruise_engaged_prev := decide (cruise_engaged ≠ 0) }
    if s.gas_interceptor_detected = false then
      { s with gas_pressed := decide (((GET_BYTE to_push 0 >>> 4) &&& 1) = 0) }
    else s
  else s

/-- The speed block (`safety_toyota.h:105-108`). -/
def rx_speed (s : EngineState) (to_push : Frame) : EngineState :=
  if GET_ADDR to_push = 0x158 then
    { s with vehicle_moving := decide ((GET_BYTE to_push 0 ||| GET_BYTE to_push 1) ≠ 0) }
  else s

/-- The brake block (`safety_toyota.h:112-115`). -/
def rx_brake (s : EngineState) (to_push : Frame) : EngineState :=
  if GET_ADDR to_push = 0x224 ∨ GET_ADDR to_push = 0x17C then
    let byte := if GET_ADDR to_push = 0x224 then 0 else 4
    { s with brake_pressed := decide (((GET_BYTE to_push byte <<< 7) &&& 0x80) ≠ 0) }
  else s

/-- The gas interceptor block (`safety_toyota.h:118-125`). -/
def rx_interceptor (s : EngineState) (to_push : Frame) : EngineState :=
  if GET_ADDR to_push = 0x201 then
    let gas_interceptor := TOYOTA_GET_INTERCEPTOR to_push
    { s with
      gas_interceptor_detected := true
      gas_pressed := decide (gas_interceptor > TOYOTA_GAS_INTERCEPTOR_THRSLD)
      gas_interceptor_prev := gas_interceptor }
  else s

/-! ## The address check (`safety_toyota.h:34-66`) -/

/-- A monitored message rule of an `AddrCheckStruct` (`CanMsgCheck`): id, bus,
length, checksum flag and expected period. -/
structure CanMsgCheck where
  addr : Nat
  bus : Nat
  len : Nat
  check_checksum : Bool
  expected_timestep : Nat
  deriving DecidableEq, Repr

/-- A check slot `AddrCheckStruct`: the rules, any of which satisfies the
slot. -/
structure AddrCheckStruct where
  msg : List CanMsgCheck
  deriving DecidableEq, Repr

/-- The rule table of `safety_toyota.h:34-40`. -/
def toyota_rx_checks : List AddrCheckStruct :=
  [ ⟨[⟨0x156, 0, 6, false, 10000⟩]⟩,
    ⟨[⟨0x17C, 0, 8, false, 10000⟩]⟩,
    ⟨[⟨0x1D0, 0, 8, false, 30000⟩]⟩,
    ⟨[⟨0x224, 0, 8, false, 25000⟩, ⟨0x309, 0, 8, false, 25000⟩]⟩ ]

/-- The additive checksum of `safety_toyota.h:46-54`, in `uint8_t` arithmetic:
the two low bytes of the id, the length and payload bytes `0 .. len - 2`. -/
def toyota_compute_checksum (to_push : Frame) : Nat :=
  let addr := GET_ADDR to_push
  let len := GET_LEN to_push
  let checksum := (addr % 256 + (addr >>> 8) % 256 + len % 256) % 256
  (List.range (len - 1)).foldl (fun checksum i => (checksum + GET_BYTE to_push i) % 256) checksum

/-- The checksum carried by the frame (`safety_toyota.h:56-59`): its last
payload byte. The index `len - 1` is a C `int`; at length 0 it is `-1`, which
names no payload byte, and as for every byte that the payload does not hold
the read gives `0`. -/
def toyota_get_checksum (to_push : Frame) : Nat :=
  let checksum_byte : Int := (GET_LEN to_push : Int) - 1
  if checksum_byte < 0 then 0 else GET_BYTE to_push checksum_byte.toNat % 256

/-- Modelled from the spec: `addr_safety_check` is not part of
`safety_toyota.h`. The rule matching the id and bus of the frame is located;
an id/bus that no rule monitors is passed through (valid); a frame whose
length differs from the rule is rejected; when the rule requires a checksum,
a frame whose last byte differs from the recomputed checksum is invalid. The
hook passes no counter getter (`NULL`), and the timestamps that the validator
tracks per slot do not enter the verdict. -/
def addr_safety_check (to_push : Frame) (rx_checks : List AddrCheckStruct)
    (get_checksum compute_checksum : Frame → Nat) : Bool :=
  match (rx_checks.flatMap fun c => c.msg).find?
      (fun m => decide (m.addr = GET_ADDR to_push ∧ m.bus = GET_BUS to_push)) with
  | none => true
  | some m =>
    if GET_LEN to_push ≠ m.len then false
    else if m.check_checksum = true ∧ get_checksum to_push ≠ compute_checksum to_push then false
    else true

/-- The verdict `valid` of `safety_toyota.h:63-64`. -/
def toyota_rx_valid (to_push : Frame) : Bool :=
  addr_safety_check to_push toyota_rx_checks toyota_get_checksum toyota_compute_checksum

/-! ## Init (`safety_toyota.h:228-233`) -/

/-- Modelled from the spec: `relay_malfunction_reset` is not part of
`safety_toyota.h`; it clears the relay-malfunction flag. -/
def relay_malfunction_reset (s : EngineState) : EngineState :=
  { s with relay_malfunction := false }

/-- The init hook (`safety_toyota.h:228-233`); `param` is the `int16_t`
parameter. -/
def toyota_init (s : EngineState) (param : Int) : EngineState :=
  let s := { s with controls_allowed := false }
  let s := relay_malfunction_reset s
  let s := { s with gas_interceptor_detected := false }
  { s with toyota_dbc_eps_torque_factor := param }

/-! ## Sequences of hook calls -/

/-- One call of a hook by the frame dispatcher, with its arguments; `valid`
in `rx` is the verdict of `addr_safety_check` on the frame. -/
inductive HookCall where
  | rx (valid : Bool) (to_push : Frame)
  | tx (ts : Nat) (to_send : Frame)
  | fwd (bus_num : Int) (to_fwd : Frame)
  | init (param : Int)
  deriving Repr

/-- Whether the call is a call of `toyota_init`. -/
def HookCall.isInit : HookCall → Bool
  | .init _ => true
  | _ => false

/-- The state after one hook call; the forward hook writes no state. -/
def step (G : Bool → EngineState → EngineState) (s : EngineState) : HookCall → EngineState
  | .rx valid to_push => (toyota_rx_hook G valid s to_push).1
  | .tx ts to_send => (toyota_tx_hook s ts to_send).1
  | .fwd _ _ => s
  | .init param => toyota_init s param

/-- The state after a sequence of hook calls, first call first. -/
def run (G : Bool → EngineState → EngineState) (s : EngineState) (calls : List HookCall) :
    EngineState :=
  calls.foldl (step G) s

/-- The decoded eps motor torque of a `0x260` frame, before scaling
(`safety_toyota.h:71-72`). -/
def torque_meas_raw (to_push : Frame) : Int :=
  to_signed (((GET_BYTE to_push 5 <<< 8) ||| GET_BYTE to_push 6 : Nat) : Int) 16

/-! ## Concrete states -/

/-- The state of the C static initialisers, before any hook call: every flag
clear, every number zero, the measurement window all zeros and
`toyota_dbc_eps_torque_factor = 100` (`safety_toyota.h:44`). -/
def state0 : EngineState :=
  { controls_allowed := false, relay_malfunction := false,
    gas_interceptor_detected := false, gas_interceptor_prev := 0,
    gas_pressed := false, brake_pressed := false,
    cruise_engaged_prev := false, vehicle_moving := false,
    desired_torque_last := 0, rt_torque_last := 0,
    torque_meas := { values := [0, 0, 0, 0, 0, 0], min := 0, max := 0 },
    ts_last := 0, unsafe_mode := 0, toyota_dbc_eps_torque_factor := 100 }


/-- The state `state0` with controls allowed and the ISO flag of `unsafe_mode`
set. -/
def state_iso : EngineState :=
  { state0 with controls_allowed := true, unsafe_mode := UNSAFE_RAISE_LONGITUDINAL_LIMITS_TO_ISO_MAX }

/-- The state `state0` with controls allowed and a rate memory of 5 and 7. -/
def state_engaged_5_7 : EngineState :=
  { state0 with controls_allowed := true, desired_torque_last := 5, rt_torque_last := 7 }

/-! ## Decoding lemmas -/

theorem GET_BYTE_lt (msg : Frame) (b : Nat) : GET_BYTE msg b < 256 := by
  unfold GET_BYTE
  exact Nat.mod_lt _ (by decide)

/-- Big-endian composition of two bytes with shift and bitwise or is
`256 * hi + lo`. -/
theorem shl8_or_eq (hi lo : Nat) (h : lo < 256) : (hi <<< 8) ||| lo = 256 * hi + lo := by
  have h2 : lo < 2 ^ 8 := by simpa using h
  have := Nat.mul_add_lt_is_or h2 hi
  rw [Nat.shiftLeft_eq, Nat.mul_comm]
  simpa using this.symm

/-- The decoded acceleration is the two's-complement reading of the
big-endian 16-bit word made of payload bytes 0 and 1. -/
theorem desired_accel_eq (f : Frame) :
    desired_accel f =
      if 32768 ≤ 256 * GET_BYTE f 0 + GET_BYTE f 1
      then (256 * GET_BYTE f 0 + GET_BYTE f 1 : Int) - 65536
      else (256 * GET_BYTE f 0 + GET_BYTE f 1 : Int) := by
  unfold desired_accel to_signed
  rw [shl8_or_eq _ _ (GET_BYTE_lt f 1)]
  by_cases h : 32768 ≤ 256 * GET_BYTE f 0 + GET_BYTE f 1
  · rw [if_pos h, if_pos (by push_cast; norm_num; omega)]
    push_cast; norm_num
  · rw [if_neg h, if_neg (by push_cast; norm_num; omega)]
    push_cast; rfl

/-- The decoded torque is the two's-complement reading of the big-endian
16-bit word made of payload bytes 1 and 2. -/
theorem desired_torque_eq (f : Frame) :
    desired_torque f =
      if 32768 ≤ 256 * GET_BYTE f 1 + GET_BYTE f 2
      then (256 * GET_BYTE f 1 + GET_BYTE f 2 : Int) - 65536
      else (256 * GET_BYTE f 1 + GET_BYTE f 2 : Int) := by
  unfold desired_torque to_signed
  rw [shl8_or_eq _ _ (GET_BYTE_lt f 2)]
  by_cases h : 32768 ≤ 256 * GET_BYTE f 1 + GET_BYTE f 2
  · rw [if_pos h, if_pos (by push_cast; norm_num; omega)]
    push_cast; norm_num
  · rw [if_neg h, if_neg (by push_cast; norm_num; omega)]
    push_cast; rfl

/-- The tx hook is the composition of its blocks. -/
theorem toyota_tx_hook_blocks (s : EngineState) (ts : Nat) (f : Frame) :
    toyota_tx_hook s ts f =
      if GET_BUS f = 0 then
        if GET_ADDR f = 0x2E4 then
          ((tx_steer s ts f).1,
            if (tx_steer s ts f).2 = true then 0
            else tx_accel s f (tx_gas s f (tx_precheck s f)))
        else (s, tx_accel s f (tx_gas s f (tx_precheck s f)))
      else (s, tx_precheck s f) := rfl


theorem tx_precheck_eq (s : EngineState) (f : Frame) :
    tx_precheck s f =
      if msg_allowed f TOYOTA_TX_MSGS = true ∧ s.relay_malfunction = false then 1 else 0 := by
  unfold tx_precheck
  cases msg_allowed f TOYOTA_TX_MSGS <;> cases s.relay_malfunction <;> simp

theorem tx_gas_zero_or (s : EngineState) (f : Frame) (tx : Int) :
    tx_gas s f tx = 0 ∨ tx_gas s f tx = tx := by
  unfold tx_gas
  split_ifs <;> simp

theorem tx_accel_zero_or (s : EngineState) (f : Frame) (tx : Int) :
    tx_accel s f tx = 0 ∨ tx_accel s f tx = tx := by
  unfold tx_accel
  simp only []
  split_ifs <;> simp

/-- The STEER block with controls not allowed: the rate memory is reset and
the violation flag says whether the decoded torque is non-zero. -/
theorem tx_steer_not_allowed (s : EngineState) (ts : Nat) (f : Frame)
    (hc : s.controls_allowed = false) :
    tx_steer s ts f =
      ({ s with desired_torque_last := 0, rt_torque_last := 0, ts_last := ts },
        decide (desired_torque f ≠ 0)) := by
  by_cases h : desired_torque f = 0
  · have h2 := h
    unfold desired_torque at h2
    simp [tx_steer, hc, h, h2]
  · have h2 := h
    unfold desired_torque at h2
    simp [tx_steer, hc, h, h2]

/-- The STEER block with controls allowed: a violation resets the rate memory,
otherwise the new command is remembered and the real-time reference is
refreshed when the interval has elapsed. -/
theorem tx_steer_allowed (s : EngineState) (ts : Nat) (f : Frame)
    (hc : s.controls_allowed = true) :
    tx_steer s ts f =
      (if steer_guards s f = true then
          { s with desired_torque_last := 0, rt_torque_last := 0, ts_last := ts }
        else if get_ts_elapsed ts s.ts_last > TOYOTA_RT_INTERVAL then
          { s with desired_torque_last := desired_torque f,
                   rt_torque_last := desired_torque f, ts_last := ts }
        else { s with desired_torque_last := desired_torque f },
        steer_guards s f) := by
  cases hv : steer_guards s f
  · have hv2 := hv
    simp only [steer_guards, desired_torque] at hv2
    by_cases he : get_ts_elapsed ts s.ts_last > TOYOTA_RT_INTERVAL
    · simp [tx_steer, hc, hv2, he, desired_torque]
    · simp [tx_steer, hc, hv2, he, desired_torque]
  · have hv2 := hv
    simp only [steer_guards, desired_torque] at hv2
    by_cases he : get_ts_elapsed ts s.ts_last > TOYOTA_RT_INTERVAL
    · simp [tx_steer, hc, hv2, he, desired_torque]
    · simp [tx_steer, hc, hv2, he, desired_torque]

/-- The result of the tx hook is `0` or the outcome of the preconditions: no
block ever raises `tx`. -/
theorem tx_result_zero_or_precheck (s : EngineState) (ts : Nat) (f : Frame) :
    (toyota_tx_hook s ts f).2 = 0 ∨ (toyota_tx_hook s ts f).2 = tx_precheck s f := by
  have hga : tx_accel s f (tx_gas s f (tx_precheck s f)) = 0
      ∨ tx_accel s f (tx_gas s f (tx_precheck s f)) = tx_precheck s f := by
    rcases tx_accel_zero_or s f (tx_gas s f (tx_precheck s f)) with h | h
    · exact Or.inl h
    · rcases tx_gas_zero_or s f (tx_precheck s f) with h2 | h2
      · exact Or.inl (by rw [h, h2])
      · exact Or.inr (by rw [h, h2])
  rw [toyota_tx_hook_blocks]
  split_ifs
  · exact Or.inl rfl
  · exact hga
  · exact hga
  · exact Or.inr rfl

/-- The modelled `msg_allowed` is membership of the (id, bus, length) triple
in the list. -/
theorem msg_allowed_iff_mem (f : Frame) (l : List CanMsg) :
    msg_allowed f l = true ↔ (⟨GET_ADDR f, GET_BUS f, GET_LEN f⟩ : CanMsg) ∈ l := by
  unfold msg_allowed
  rw [List.any_eq_true]
  constructor
  · rintro ⟨m, hm, hd⟩
    have hd2 := of_decide_eq_true hd
    obtain ⟨h1, h2, h3⟩ := hd2
    have : (⟨GET_ADDR f, GET_BUS f, GET_LEN f⟩ : CanMsg) = m := by
      cases m
      simp_all
    rw [this]
    exact hm
  · intro hm
    exact ⟨_, hm, by simp⟩

/-- A frame that the tx hook does not deny passed the preconditions: it is
in the allow-list and no relay malfunction is active. -/
theorem tx_nonzero_imp_precheck (s : EngineState) (ts : Nat) (f : Frame)
    (hne : (toyota_tx_hook s ts f).2 ≠ 0) :
    (⟨GET_ADDR f, GET_BUS f, GET_LEN f⟩ : CanMsg) ∈ TOYOTA_TX_MSGS
      ∧ s.relay_malfunction = false := by
  rcases tx_result_zero_or_precheck s ts f with h | h
  · exact absurd h hne
  · rw [h, tx_precheck_eq] at hne
    have : msg_allowed f TOYOTA_TX_MSGS = true ∧ s.relay_malfunction = false := by
      by_contra hcon
      exact hne (if_neg hcon)
    exact ⟨(msg_allowed_iff_mem f _).mp this.1, this.2⟩

/-! ## Claims on the tx hook -/

/-- C1: with controls not allowed, a bus-0 frame is denied (`tx = 0`) when it
is a gas command `0x200` with payload byte 0 or 1 non-zero, an acceleration
command `0x343` with non-zero decoded value, or a steering command `0x2E4`
with non-zero decoded torque. -/
theorem tx_denies_nonzero_actuation_without_controls
    (s : EngineState) (ts : Nat) (f : Frame)
    (hc : s.controls_allowed = false) (hbus : GET_BUS f = 0)
    (h : (GET_ADDR f = 0x200 ∧ (GET_BYTE f 0 ≠ 0 ∨ GET_BYTE f 1 ≠ 0))
       ∨ (GET_ADDR f = 0x343 ∧ desired_accel f ≠ 0)
       ∨ (GET_ADDR f = 0x2E4 ∧ desired_torque f ≠ 0)) :
    (toyota_tx_hook s ts f).2 = 0 := by
  rw [toyota_tx_hook_blocks]
  rcases h with ⟨ha, hb⟩ | ⟨ha, hb⟩ | ⟨ha, hb⟩
  · have hg : tx_gas s f (tx_precheck s f) = 0 := by
      simp only [tx_gas, ha, hc, if_true, if_pos hb]
    have ha2 : tx_accel s f 0 = 0 := by
      rcases tx_accel_zero_or s f 0 with h | h <;> exact h
    simp [hbus, ha, hg, ha2]
  · have hacc : ∀ tx, tx_accel s f tx = 0 := by
      intro tx
      unfold desired_accel at hb
      simp only [tx_accel, ha, hc, if_true]
      split_ifs <;> rfl
    simp [hbus, ha, hacc]
  · simp [hbus, ha, tx_steer_not_allowed s ts f hc, hb]

/-- Witness of C1: an acceleration command of 5 on bus 0 with controls not
allowed is denied. -/
theorem tx_denies_nonzero_actuation_without_controls_witness :
    state0.controls_allowed = false ∧
    desired_accel ⟨0x343, 0, 8, [0, 5, 0, 0, 0, 0, 0, 0]⟩ ≠ 0 ∧
    (toyota_tx_hook state0 0 ⟨0x343, 0, 8, [0, 5, 0, 0, 0, 0, 0, 0]⟩).2 = 0 :=
  ⟨rfl, by decide,
    tx_denies_nonzero_actuation_without_controls state0 0 ⟨0x343, 0, 8, [0, 5, 0, 0, 0, 0, 0, 0]⟩
      rfl rfl (Or.inr (Or.inl ⟨rfl, by decide⟩))⟩

/-- C2: a steering frame `0x2E4` on bus 0 whose decoded torque exceeds the
global limit 1500 in absolute value is denied in every state, and afterwards
`desired_torque_last = 0` and `rt_torque_last = 0`. -/
theorem tx_steer_above_max_torque_denied
    (s : EngineState) (ts : Nat) (f : Frame)
    (haddr : GET_ADDR f = 0x2E4) (hbus : GET_BUS f = 0)
    (h : 1500 < |desired_torque f|) :
    (toyota_tx_hook s ts f).2 = 0
      ∧ (toyota_tx_hook s ts f).1.desired_torque_last = 0
      ∧ (toyota_tx_hook s ts f).1.rt_torque_last = 0 := by
  have hne : desired_torque f ≠ 0 := by
    intro h0
    rw [h0] at h
    simp at h
  have hlim : max_limit_check (desired_torque f) TOYOTA_MAX_TORQUE (-TOYOTA_MAX_TORQUE) = true := by
    rcases lt_abs.mp h with h1 | h1
    · simp [max_limit_check, TOYOTA_MAX_TORQUE, h1]
    · simp only [max_limit_check, TOYOTA_MAX_TORQUE, Bool.or_eq_true, decide_eq_true_eq]
      right
      linarith
  rw [toyota_tx_hook_blocks]
  cases hc : s.controls_allowed
  · simp [hbus, haddr, tx_steer_not_allowed s ts f hc, hne]
  · have hg : steer_guards s f = true := by simp [steer_guards, hlim]
    simp [hbus, haddr, tx_steer_allowed s ts f hc, hg]

/-- Witness of C2: a steering command of 1600 with controls allowed is denied
and the rate memory is reset. -/
theorem tx_steer_above_max_torque_denied_witness :
    desired_torque ⟨0x2E4, 0, 8, [0, 6, 64, 0, 0, 0, 0, 0]⟩ = 1600 ∧
    (toyota_tx_hook { state0 with controls_allowed := true } 0
        ⟨0x2E4, 0, 8, [0, 6, 64, 0, 0, 0, 0, 0]⟩).2 = 0
      ∧ (toyota_tx_hook { state0 with controls_allowed := true } 0
        ⟨0x2E4, 0, 8, [0, 6, 64, 0, 0, 0, 0, 0]⟩).1.desired_torque_last = 0
      ∧ (toyota_tx_hook { state0 with controls_allowed := true } 0
        ⟨0x2E4, 0, 8, [0, 6, 64, 0, 0, 0, 0, 0]⟩).1.rt_torque_last = 0 :=
  ⟨by decide,
    tx_steer_above_max_torque_denied { state0 with controls_allowed := true } 0
      ⟨0x2E4, 0, 8, [0, 6, 64, 0, 0, 0, 0, 0]⟩ rfl rfl (by decide)⟩

/-- C3: the tx hook permits (`tx = 1`) only a frame whose (id, bus, length)
triple is an entry of `TOYOTA_TX_MSGS` and only while no relay malfunction is
active; a frame outside the allow-list, and any frame during a relay
malfunction, is denied (`tx = 0`). -/
theorem tx_permit_only_allow_listed_and_no_relay_malfunction
    (s : EngineState) (ts : Nat) (f : Frame) :
    ((toyota_tx_hook s ts f).2 = 1 →
        (⟨GET_ADDR f, GET_BUS f, GET_LEN f⟩ : CanMsg) ∈ TOYOTA_TX_MSGS
          ∧ s.relay_malfunction = false)
    ∧ (((⟨GET_ADDR f, GET_BUS f, GET_LEN f⟩ : CanMsg) ∉ TOYOTA_TX_MSGS
          ∨ s.relay_malfunction = true) →
        (toyota_tx_hook s ts f).2 = 0) := by
  have key := tx_nonzero_imp_precheck s ts f
  constructor
  · intro h1
    exact key (by rw [h1]; decide)
  · intro hor
    by_contra hne
    have := key hne
    rcases hor with h | h
    · exact h this.1
    · rw [this.2] at h
      exact Bool.noConfusion h

/-- Witness of C3: the allow-listed frame `0x164` is permitted in the
all-clear state, and denied during a relay malfunction. -/
theorem tx_permit_only_allow_listed_and_no_relay_malfunction_witness :
    (toyota_tx_hook state0 0 ⟨0x164, 0, 8, [0, 0, 0, 0, 0, 0, 0, 0]⟩).2 = 1
    ∧ ((⟨0x164, 0, 8⟩ : CanMsg) ∈ TOYOTA_TX_MSGS ∧ state0.relay_malfunction = false)
    ∧ (toyota_tx_hook { state0 with relay_malfunction := true } 0
        ⟨0x164, 0, 8, [0, 0, 0, 0, 0, 0, 0, 0]⟩).2 = 0 :=
  ⟨by decide,
    (tx_permit_only_allow_listed_and_no_relay_malfunction state0 0
      ⟨0x164, 0, 8, [0, 0, 0, 0, 0, 0, 0, 0]⟩).1 (by decide),
    (tx_permit_only_allow_listed_and_no_relay_malfunction
      { state0 with relay_malfunction := true } 0
      ⟨0x164, 0, 8, [0, 0, 0, 0, 0, 0, 0, 0]⟩).2 (Or.inr rfl)⟩

/-- C4 (as stated, refuted): a steering command of 5 with controls allowed and
no guard firing is denied by the preconditions alone (relay malfunction in the
first state, the allow-list in the second), and the rate memory then holds the
denied value 5, not 0. -/
theorem tx_denied_steer_resets_counterexample :
    GET_ADDR ⟨0x2E4, 0, 8, [0, 0, 5, 0, 0, 0, 0, 0]⟩ = 0x2E4
    ∧ GET_BUS ⟨0x2E4, 0, 8, [0, 0, 5, 0, 0, 0, 0, 0]⟩ = 0
    ∧ (toyota_tx_hook { state0 with controls_allowed := true, relay_malfunction := true } 0
        ⟨0x2E4, 0, 8, [0, 0, 5, 0, 0, 0, 0, 0]⟩).2 = 0
    ∧ (toyota_tx_hook { state0 with controls_allowed := true, relay_malfunction := true } 0
        ⟨0x2E4, 0, 8, [0, 0, 5, 0, 0, 0, 0, 0]⟩).1.desired_torque_last = 5
    ∧ (toyota_tx_hook { state0 with controls_allowed := true } 0
        ⟨0x2E4, 0, 8, [0, 0, 5, 0, 0, 0, 0, 0]⟩).2 = 0
    ∧ (toyota_tx_hook { state0 with controls_allowed := true } 0
        ⟨0x2E4, 0, 8, [0, 0, 5, 0, 0, 0, 0, 0]⟩).1.desired_torque_last = 5 := by
  decide

/-- C4 (amended): on a steering frame `0x2E4` on bus 0, if controls are not
allowed or one of the steering guards fires (absolute bound, rate and
measurement bound, real-time bound), then after the call
`desired_torque_last = 0` and `rt_torque_last = 0`; if controls are allowed and
no guard fires, `desired_torque_last` is the new command, whatever the hook
returns. -/
theorem tx_steer_violation_resets_rate_memory
    (s : EngineState) (ts : Nat) (f : Frame)
    (haddr : GET_ADDR f = 0x2E4) (hbus : GET_BUS f = 0) :
    ((s.controls_allowed = false
        ∨ max_limit_check (desired_torque f) TOYOTA_MAX_TORQUE (-TOYOTA_MAX_TORQUE) = true
        ∨ dist_to_meas_check (desired_torque f) s.desired_torque_last s.torque_meas
            TOYOTA_MAX_RATE_UP TOYOTA_MAX_RATE_DOWN TOYOTA_MAX_TORQUE_ERROR = true
        ∨ rt_rate_limit_check (desired_torque f) s.rt_torque_last TOYOTA_MAX_RT_DELTA = true) →
      (toyota_tx_hook s ts f).1.desired_torque_last = 0
        ∧ (toyota_tx_hook s ts f).1.rt_torque_last = 0)
    ∧ ((s.controls_allowed = true
        ∧ max_limit_check (desired_torque f) TOYOTA_MAX_TORQUE (-TOYOTA_MAX_TORQUE) = false
        ∧ dist_to_meas_check (desired_torque f) s.desired_torque_last s.torque_meas
            TOYOTA_MAX_RATE_UP TOYOTA_MAX_RATE_DOWN TOYOTA_MAX_TORQUE_ERROR = false
        ∧ rt_rate_limit_check (desired_torque f) s.rt_torque_last TOYOTA_MAX_RT_DELTA = false) →
      (toyota_tx_hook s ts f).1.desired_torque_last = desired_torque f) := by
  rw [toyota_tx_hook_blocks]
  simp only [hbus, haddr, if_true]
  constructor
  · intro h
    cases hc : s.controls_allowed
    · simp [tx_steer_not_allowed s ts f hc]
    · have hg : steer_guards s f = true := by
        rcases h with h | h | h | h
        · rw [hc] at h
          exact Bool.noConfusion h
        · simp [steer_guards, h]
        · simp [steer_guards, h]
        · simp [steer_guards, h]
      simp [tx_steer_allowed s ts f hc, hg]
  · rintro ⟨hc, h1, h2, h3⟩
    have hg : steer_guards s f = false := by simp [steer_guards, h1, h2, h3]
    rw [tx_steer_allowed s ts f hc]
    by_cases he : get_ts_elapsed ts s.ts_last > TOYOTA_RT_INTERVAL
    · simp [hg, he]
    · simp [hg, he]

/-- Witness of C4 (amended): a command of 1600 with controls allowed fires the
absolute bound and resets the rate memory; a command of 5 fires nothing and is
remembered. -/
theorem tx_steer_violation_resets_rate_memory_witness :
    ((toyota_tx_hook { state0 with controls_allowed := true } 0
        ⟨0x2E4, 0, 8, [0, 6, 64, 0, 0, 0, 0, 0]⟩).1.desired_torque_last = 0
      ∧ (toyota_tx_hook { state0 with controls_allowed := true } 0
        ⟨0x2E4, 0, 8, [0, 6, 64, 0, 0, 0, 0, 0]⟩).1.rt_torque_last = 0)
    ∧ (toyota_tx_hook { state0 with controls_allowed := true } 0
        ⟨0x2E4, 0, 8, [0, 0, 5, 0, 0, 0, 0, 0]⟩).1.desired_torque_last
        = desired_torque ⟨0x2E4, 0, 8, [0, 0, 5, 0, 0, 0, 0, 0]⟩ :=
  ⟨(tx_steer_violation_resets_rate_memory { state0 with controls_allowed := true } 0
      ⟨0x2E4, 0, 8, [0, 6, 64, 0, 0, 0, 0, 0]⟩ rfl rfl).1 (Or.inr (Or.inl (by decide))),
   (tx_steer_violation_resets_rate_memory { state0 with controls_allowed := true } 0
      ⟨0x2E4, 0, 8, [0, 0, 5, 0, 0, 0, 0, 0]⟩ rfl rfl).2
      ⟨rfl, by decide, by decide, by decide⟩⟩

/-- C5 (as stated, refuted): with controls not allowed and no relay
malfunction, the steering command of torque 0 is not permitted: the hook
returns 0. -/
theorem tx_zero_steer_permitted_counterexample :
    state0.controls_allowed = false ∧ state0.relay_malfunction = false
    ∧ GET_ADDR ⟨0x2E4, 0, 8, [0, 0, 0, 0, 0, 0, 0, 0]⟩ = 0x2E4
    ∧ GET_BUS ⟨0x2E4, 0, 8, [0, 0, 0, 0, 0, 0, 0, 0]⟩ = 0
    ∧ desired_torque ⟨0x2E4, 0, 8, [0, 0, 0, 0, 0, 0, 0, 0]⟩ = 0
    ∧ (toyota_tx_hook state0 0 ⟨0x2E4, 0, 8, [0, 0, 0, 0, 0, 0, 0, 0]⟩).2 ≠ 1 := by
  decide

/-- C5 (amended): with controls not allowed and no relay malfunction, a
steering frame `0x2E4` on bus 0 with decoded torque 0 raises no violation in
the STEER block, yet the hook returns 0, because no entry of `TOYOTA_TX_MSGS`
has id `0x2E4`. -/
theorem tx_zero_steer_no_violation_but_not_allow_listed
    (s : EngineState) (ts : Nat) (f : Frame)
    (hc : s.controls_allowed = false) (_hr : s.relay_malfunction = false)
    (haddr : GET_ADDR f = 0x2E4) (_hbus : GET_BUS f = 0) (h0 : desired_torque f = 0) :
    (tx_steer s ts f).2 = false
    ∧ (⟨GET_ADDR f, GET_BUS f, GET_LEN f⟩ : CanMsg) ∉ TOYOTA_TX_MSGS
    ∧ (toyota_tx_hook s ts f).2 = 0 := by
  have hmem : (⟨GET_ADDR f, GET_BUS f, GET_LEN f⟩ : CanMsg) ∉ TOYOTA_TX_MSGS := by
    rw [haddr]
    simp [TOYOTA_TX_MSGS]
  refine ⟨by simp [tx_steer_not_allowed s ts f hc, h0], hmem, ?_⟩
  by_contra hne
  exact hmem (tx_nonzero_imp_precheck s ts f hne).1

/-- Witness of C5 (amended): the zero steering command in the all-clear
state. -/
theorem tx_zero_steer_no_violation_but_not_allow_listed_witness :
    (tx_steer state0 0 ⟨0x2E4, 0, 8, [0, 0, 0, 0, 0, 0, 0, 0]⟩).2 = false
    ∧ (⟨0x2E4, 0, 8⟩ : CanMsg) ∉ TOYOTA_TX_MSGS
    ∧ (toyota_tx_hook state0 0 ⟨0x2E4, 0, 8, [0, 0, 0, 0, 0, 0, 0, 0]⟩).2 = 0 :=
  tx_zero_steer_no_violation_but_not_allow_listed state0 0
    ⟨0x2E4, 0, 8, [0, 0, 0, 0, 0, 0, 0, 0]⟩ rfl rfl rfl rfl (by decide)

/-- C10: an acceleration frame `0x343` on bus 0 is denied in every state,
controls allowed or not, when its decoded value `a` is out of bounds: with the
ISO flag of `unsafe_mode` clear when `a > 1500` or `a < -3000`, with the flag
set when `a > 2000` or `a < -3500`. -/
theorem tx_accel_out_of_bounds_denied
    (s : EngineState) (ts : Nat) (f : Frame)
    (haddr : GET_ADDR f = 0x343) (hbus : GET_BUS f = 0) :
    (s.unsafe_mode &&& UNSAFE_RAISE_LONGITUDINAL_LIMITS_TO_ISO_MAX = 0 →
        (desired_accel f > 1500 ∨ desired_accel f < -3000) →
        (toyota_tx_hook s ts f).2 = 0)
    ∧ (s.unsafe_mode &&& UNSAFE_RAISE_LONGITUDINAL_LIMITS_TO_ISO_MAX ≠ 0 →
        (desired_accel f > 2000 ∨ desired_accel f < -3500) →
        (toyota_tx_hook s ts f).2 = 0) := by
  have hne : GET_ADDR f ≠ 0x2E4 := by rw [haddr]; decide
  rw [toyota_tx_hook_blocks]
  simp only [hbus, hne, if_true, if_false]
  constructor
  · intro hflag hrange
    have hv : max_limit_check (desired_accel f) TOYOTA_MAX_ACCEL TOYOTA_MIN_ACCEL = true := by
      simp only [max_limit_check, TOYOTA_MAX_ACCEL, TOYOTA_MIN_ACCEL, Bool.or_eq_true,
        decide_eq_true_eq]
      exact hrange
    unfold desired_accel at hv
    simp [tx_accel, haddr, hflag, hv]
  · intro hflag hrange
    have hv : max_limit_check (desired_accel f) TOYOTA_ISO_MAX_ACCEL TOYOTA_ISO_MIN_ACCEL
        = true := by
      simp only [max_limit_check, TOYOTA_ISO_MAX_ACCEL, TOYOTA_ISO_MIN_ACCEL, Bool.or_eq_true,
        decide_eq_true_eq]
      exact hrange
    unfold desired_accel at hv
    simp [tx_accel, haddr, hflag, hv]

/-- Witness of C10: with controls allowed, 1501 is denied under the nominal
bounds and -3501 under the ISO bounds. -/
theorem tx_accel_out_of_bounds_denied_witness :
    desired_accel ⟨0x343, 0, 8, [5, 221, 0, 0, 0, 0, 0, 0]⟩ = 1501
    ∧ (toyota_tx_hook { state0 with controls_allowed := true } 0
        ⟨0x343, 0, 8, [5, 221, 0, 0, 0, 0, 0, 0]⟩).2 = 0
    ∧ desired_accel ⟨0x343, 0, 8, [242, 83, 0, 0, 0, 0, 0, 0]⟩ = -3501
    ∧ (toyota_tx_hook state_iso 0
        ⟨0x343, 0, 8, [242, 83, 0, 0, 0, 0, 0, 0]⟩).2 = 0 :=
  ⟨by decide,
    (tx_accel_out_of_bounds_denied { state0 with controls_allowed := true } 0
      ⟨0x343, 0, 8, [5, 221, 0, 0, 0, 0, 0, 0]⟩ rfl rfl).1 (by decide) (Or.inl (by decide)),
    by decide,
    (tx_accel_out_of_bounds_denied state_iso 0
      ⟨0x343, 0, 8, [242, 83, 0, 0, 0, 0, 0, 0]⟩ rfl rfl).2 (by decide) (Or.inr (by decide))⟩

/-! ## Claims on the rx hook -/

/-- The state update of the rx hook is the composition of its blocks. -/
theorem toyota_rx_update_blocks (s : EngineState) (f : Frame) :
    toyota_rx_update s f =
      rx_interceptor (rx_brake (rx_speed (rx_cruise (rx_torque s f) f) f) f) f := rfl

theorem rx_torque_controls_allowed (s : EngineState) (f : Frame) :
    (rx_torque s f).controls_allowed = s.controls_allowed
      ∧ (rx_torque s f).cruise_engaged_prev = s.cruise_engaged_prev := by
  unfold rx_torque
  split_ifs <;> exact ⟨rfl, rfl⟩

theorem rx_speed_controls_allowed (s : EngineState) (f : Frame) :
    (rx_speed s f).controls_allowed = s.controls_allowed := by
  unfold rx_speed
  split_ifs <;> rfl

theorem rx_brake_controls_allowed (s : EngineState) (f : Frame) :
    (rx_brake s f).controls_allowed = s.controls_allowed := by
  unfold rx_brake
  split_ifs <;> rfl

theorem rx_interceptor_controls_allowed (s : EngineState) (f : Frame) :
    (rx_interceptor s f).controls_allowed = s.controls_allowed := by
  unfold rx_interceptor
  split_ifs <;> rfl

theorem rx_cruise_controls_allowed (s : EngineState) (f : Frame) :
    (rx_cruise s f).controls_allowed =
      if GET_ADDR f = 0x164 then
        if GET_BYTE f 0 &&& 0x20 = 0 then false
        else if s.cruise_engaged_prev = false then true
        else s.controls_allowed
      else s.controls_allowed := by
  by_cases ha : GET_ADDR f = 0x164
  · by_cases hb : GET_BYTE f 0 &&& 0x20 = 0
    · cases hi : s.gas_interceptor_detected <;> simp [rx_cruise, ha, hb, hi]
    · cases hp : s.cruise_engaged_prev <;> cases hi : s.gas_interceptor_detected <;>
        simp [rx_cruise, ha, hb, hp, hi]
  · simp only [rx_cruise, ha, if_false]

/-- What the state updates of the rx hook do to `controls_allowed`: only the
`0x164` block writes it, clearing it when the engagement bit is clear and
setting it when the bit is set and was not set before. -/
theorem rx_update_controls_allowed (s : EngineState) (f : Frame) :
    (toyota_rx_update s f).controls_allowed =
      if GET_ADDR f = 0x164 then
        if GET_BYTE f 0 &&& 0x20 = 0 then false
        else if s.cruise_engaged_prev = false then true
        else s.controls_allowed
      else s.controls_allowed := by
  rw [toyota_rx_update_blocks, rx_interceptor_controls_allowed, rx_brake_controls_allowed,
    rx_speed_controls_allowed, rx_cruise_controls_allowed, (rx_torque_controls_allowed s f).1,
    (rx_torque_controls_allowed s f).2]

/-- The rx hook on a valid bus-0 frame hands the updated state to
`generic_rx_checks`; on any other frame it leaves the state alone. -/
theorem rx_hook_eq (G : Bool → EngineState → EngineState) (valid : Bool)
    (s : EngineState) (f : Frame) :
    (toyota_rx_hook G valid s f).1 =
      if valid = true ∧ GET_BUS f = 0 then G (decide (GET_ADDR f = 0x2E4)) (toyota_rx_update s f)
      else s := by
  unfold toyota_rx_hook
  split_ifs <;> rfl

/-- The modelled instance of `generic_rx_checks` never grants controls. -/
theorem generic_rx_checks_never_grants (b : Bool) (st : EngineState)
    (h : (generic_rx_checks b st).controls_allowed = true) : st.controls_allowed = true := by
  exact h

/-- C6: provided `generic_rx_checks` never grants controls, the rx hook turns
`controls_allowed` from false to true only on a valid bus-0 frame `0x164` whose
engagement bit (byte 0, mask `0x20`) is set while `cruise_engaged_prev` was
unset; and after a valid bus-0 frame `0x164` whose engagement bit is clear,
`controls_allowed` is false whatever the prior state. -/
theorem rx_controls_entry_on_edge_exit_on_level
    (G : Bool → EngineState → EngineState)
    (hG : ∀ b st, (G b st).controls_allowed = true → st.controls_allowed = true)
    (valid : Bool) (s : EngineState) (f : Frame) :
    (s.controls_allowed = false →
      (toyota_rx_hook G valid s f).1.controls_allowed = true →
        valid = true ∧ GET_BUS f = 0 ∧ GET_ADDR f = 0x164
          ∧ GET_BYTE f 0 &&& 0x20 ≠ 0 ∧ s.cruise_engaged_prev = false)
    ∧ (valid = true → GET_BUS f = 0 → GET_ADDR f = 0x164 → GET_BYTE f 0 &&& 0x20 = 0 →
        (toyota_rx_hook G valid s f).1.controls_allowed = false) := by
  constructor
  · intro hc hpost
    rw [rx_hook_eq] at hpost
    by_cases hv : valid = true ∧ GET_BUS f = 0
    · rw [if_pos hv] at hpost
      have hup := hG _ _ hpost
      rw [rx_update_controls_allowed] at hup
      by_cases ha : GET_ADDR f = 0x164
      · rw [if_pos ha] at hup
        by_cases hb : GET_BYTE f 0 &&& 0x20 = 0
        · rw [if_pos hb] at hup
          exact Bool.noConfusion hup
        · rw [if_neg hb] at hup
          by_cases hp : s.cruise_engaged_prev = false
          · exact ⟨hv.1, hv.2, ha, hb, hp⟩
          · rw [if_neg hp, hc] at hup
            exact Bool.noConfusion hup
      · rw [if_neg ha, hc] at hup
        exact Bool.noConfusion hup
    · rw [if_neg hv, hc] at hpost
      exact Bool.noConfusion hpost
  · intro hv hbus ha hb
    rw [rx_hook_eq, if_pos ⟨hv, hbus⟩]
    cases hpost : (G (decide (GET_ADDR f = 0x2E4)) (toyota_rx_update s f)).controls_allowed
    · rfl
    · have hup := hG _ _ hpost
      rw [rx_update_controls_allowed, if_pos ha, if_pos hb] at hup
      exact Bool.noConfusion hup

/-- Witness of C6, with the modelled `generic_rx_checks`: in the all-clear
state a `0x164` frame with the engagement bit set enables controls, and in a
state with controls allowed one with the bit clear disables them. -/
theorem rx_controls_entry_on_edge_exit_on_level_witness :
    (toyota_rx_hook generic_rx_checks true state0
        ⟨0x164, 0, 8, [0x30, 0, 0, 0, 0, 0, 0, 0]⟩).1.controls_allowed = true
    ∧ (true = true ∧ GET_BUS ⟨0x164, 0, 8, [0x30, 0, 0, 0, 0, 0, 0, 0]⟩ = 0
        ∧ GET_ADDR ⟨0x164, 0, 8, [0x30, 0, 0, 0, 0, 0, 0, 0]⟩ = 0x164
        ∧ GET_BYTE ⟨0x164, 0, 8, [0x30, 0, 0, 0, 0, 0, 0, 0]⟩ 0 &&& 0x20 ≠ 0
        ∧ state0.cruise_engaged_prev = false)
    ∧ (toyota_rx_hook generic_rx_checks true state_iso
        ⟨0x164, 0, 8, [0x10, 0, 0, 0, 0, 0, 0, 0]⟩).1.controls_allowed = false :=
  ⟨by decide,
    (rx_controls_entry_on_edge_exit_on_level generic_rx_checks generic_rx_checks_never_grants
      true state0 ⟨0x164, 0, 8, [0x30, 0, 0, 0, 0, 0, 0, 0]⟩).1 rfl (by decide),
    (rx_controls_entry_on_edge_exit_on_level generic_rx_checks generic_rx_checks_never_grants
      true state_iso ⟨0x164, 0, 8, [0x10, 0, 0, 0, 0, 0, 0, 0]⟩).2 rfl rfl rfl (by decide)⟩

/-- C8: a frame from the camera bus (`bus_num = 2`) is forwarded to bus 0
exactly when no relay malfunction is active and its id is none of `0x2E4`,
`0x412`, `0x191`, `0x343`; otherwise the hook returns `-1`. In particular the
steering id `0x2E4` is never forwarded from bus 2 to bus 0. -/
theorem fwd_from_camera_bus (s : EngineState) (f : Frame) :
    (toyota_fwd_hook s 2 f = 0 ↔
        s.relay_malfunction = false ∧ GET_ADDR f ≠ 0x2E4 ∧ GET_ADDR f ≠ 0x412
          ∧ GET_ADDR f ≠ 0x191 ∧ GET_ADDR f ≠ 0x343)
    ∧ (¬ (s.relay_malfunction = false ∧ GET_ADDR f ≠ 0x2E4 ∧ GET_ADDR f ≠ 0x412
          ∧ GET_ADDR f ≠ 0x191 ∧ GET_ADDR f ≠ 0x343) →
        toyota_fwd_hook s 2 f = -1)
    ∧ (GET_ADDR f = 0x2E4 → toyota_fwd_hook s 2 f ≠ 0) := by
  cases hr : s.relay_malfunction
  · by_cases h1 : GET_ADDR f = 0x2E4
    · simp [toyota_fwd_hook, hr, h1]
    · by_cases h2 : GET_ADDR f = 0x412
      · simp [toyota_fwd_hook, hr, h2]
      · by_cases h3 : GET_ADDR f = 0x191
        · simp [toyota_fwd_hook, hr, h3]
        · by_cases h4 : GET_ADDR f = 0x343
          · simp [toyota_fwd_hook, hr, h4]
          · simp [toyota_fwd_hook, hr, h1, h2, h3, h4]
  · simp [toyota_fwd_hook, hr]

/-- Witness of C8: from bus 2 the steering id is blocked and another id is
forwarded to bus 0. -/
theorem fwd_from_camera_bus_witness :
    toyota_fwd_hook state0 2 ⟨0x2E4, 2, 8, []⟩ = -1
    ∧ toyota_fwd_hook state0 2 ⟨0x2E4, 2, 8, []⟩ ≠ 0
    ∧ toyota_fwd_hook state0 2 ⟨0x123, 2, 8, []⟩ = 0 :=
  ⟨(fwd_from_camera_bus state0 ⟨0x2E4, 2, 8, []⟩).2.1 (by decide),
    (fwd_from_camera_bus state0 ⟨0x2E4, 2, 8, []⟩).2.2 rfl,
    (fwd_from_camera_bus state0 ⟨0x123, 2, 8, []⟩).1.mpr (by decide)⟩

/-- C9: while a relay malfunction is active the forward hook returns `-1`
for every source bus and every frame; while none is active, every frame from
the vehicle bus (`bus_num = 0`) is forwarded to bus 2 whatever its id. -/
theorem fwd_relay_malfunction_blocks_all_and_vehicle_bus_forwards
    (s : EngineState) (bus_num : Int) (f : Frame) :
    (s.relay_malfunction = true → toyota_fwd_hook s bus_num f = -1)
    ∧ (s.relay_malfunction = false → toyota_fwd_hook s 0 f = 2) := by
  constructor
  · intro hr
    simp [toyota_fwd_hook, hr]
  · intro hr
    simp [toyota_fwd_hook, hr]

/-- Witness of C9: during a relay malfunction a frame from bus 0 is not
forwarded; without one the steering id from bus 0 goes to bus 2. -/
theorem fwd_relay_malfunction_blocks_all_and_vehicle_bus_forwards_witness :
    toyota_fwd_hook { state0 with relay_malfunction := true } 0 ⟨0x123, 0, 8, []⟩ = -1
    ∧ toyota_fwd_hook state0 0 ⟨0x2E4, 0, 8, []⟩ = 2 :=
  ⟨(fwd_relay_malfunction_blocks_all_and_vehicle_bus_forwards
      { state0 with relay_malfunction := true } 0 ⟨0x123, 0, 8, []⟩).1 rfl,
    (fwd_relay_malfunction_blocks_all_and_vehicle_bus_forwards
      state0 0 ⟨0x2E4, 0, 8, []⟩).2 rfl⟩

/-! ## Claims on the address check -/

/-- The rx hook returns the verdict it was given. -/
theorem rx_hook_snd (G : Bool → EngineState → EngineState) (valid : Bool)
    (s : EngineState) (f : Frame) : (toyota_rx_hook G valid s f).2 = valid := by
  unfold toyota_rx_hook
  split_ifs <;> rfl

/-- Every rule of `toyota_rx_checks` has its checksum flag clear. -/
theorem toyota_rx_checks_no_checksum :
    ∀ m ∈ toyota_rx_checks.flatMap (fun c => c.msg), m.check_checksum = false := by
  decide

/-- A frame whose id, bus and length match a rule of `toyota_rx_checks` is
valid. -/
theorem toyota_rx_valid_of_match (f : Frame)
    (hmatch : ∃ m ∈ toyota_rx_checks.flatMap (fun c => c.msg),
      m.addr = GET_ADDR f ∧ m.bus = GET_BUS f ∧ m.len = GET_LEN f) :
    toyota_rx_valid f = true := by
  obtain ⟨m, hm, ha, hb, hl⟩ := hmatch
  simp only [toyota_rx_checks, List.flatMap_cons, List.flatMap_nil, List.cons_append,
    List.nil_append, List.append_nil, List.mem_cons, List.mem_singleton, List.not_mem_nil,
    or_false] at hm
  rcases hm with rfl | rfl | rfl | rfl | rfl <;>
    simp [toyota_rx_valid, addr_safety_check, toyota_rx_checks, ← ha, ← hb, ← hl]

/-- C11 (as stated, refuted): the frame `0x156` on bus 0 with length 6 and an
all-zero payload matches a rule of `toyota_rx_checks`; its last byte 0 differs
from the additive checksum 93; yet the rx hook returns true. -/
theorem rx_checksum_mismatch_invalid_counterexample :
    (∃ m ∈ toyota_rx_checks.flatMap (fun c => c.msg),
      m.addr = GET_ADDR ⟨0x156, 0, 6, [0, 0, 0, 0, 0, 0]⟩
        ∧ m.bus = GET_BUS ⟨0x156, 0, 6, [0, 0, 0, 0, 0, 0]⟩)
    ∧ toyota_get_checksum ⟨0x156, 0, 6, [0, 0, 0, 0, 0, 0]⟩ = 0
    ∧ toyota_compute_checksum ⟨0x156, 0, 6, [0, 0, 0, 0, 0, 0]⟩ = 93
    ∧ (toyota_rx_hook generic_rx_checks (toyota_rx_valid ⟨0x156, 0, 6, [0, 0, 0, 0, 0, 0]⟩)
        state0 ⟨0x156, 0, 6, [0, 0, 0, 0, 0, 0]⟩).2 = true := by
  refine ⟨⟨⟨0x156, 0, 6, false, 10000⟩, by decide, rfl, rfl⟩, by decide, by decide, by decide⟩

/-- C11 (amended): a checksum mismatch invalidates a frame only under a rule
whose `check_checksum` flag is set; every rule of `toyota_rx_checks` has the
flag clear, so the rx hook returns true for every frame whose id, bus and
length match a rule of the table, whatever its last payload byte. -/
theorem rx_checksum_checked_only_when_flagged
    (G : Bool → EngineState → EngineState) (s : EngineState) (f : Frame) :
    ((∃ m ∈ toyota_rx_checks.flatMap (fun c => c.msg),
        m.addr = GET_ADDR f ∧ m.bus = GET_BUS f ∧ m.len = GET_LEN f) →
      (toyota_rx_hook G (toyota_rx_valid f) s f).2 = true)
    ∧ (∀ m : CanMsgCheck, m.addr = GET_ADDR f → m.bus = GET_BUS f →
        m.check_checksum = true → toyota_get_checksum f ≠ toyota_compute_checksum f →
        addr_safety_check f [⟨[m]⟩] toyota_get_checksum toyota_compute_checksum = false) := by
  constructor
  · intro hmatch
    rw [rx_hook_snd]
    exact toyota_rx_valid_of_match f hmatch
  · intro m ha hb hc hne
    simp [addr_safety_check, ha, hb, hc, hne]

/-- Witness of C11 (amended): the frame `0x17C` with a wrong last byte is
valid under `toyota_rx_checks`, and invalid under the same rule with the
checksum flag set. -/
theorem rx_checksum_checked_only_when_flagged_witness :
    (toyota_rx_hook generic_rx_checks (toyota_rx_valid ⟨0x17C, 0, 8, [0, 0, 0, 0, 0, 0, 0, 1]⟩)
        state0 ⟨0x17C, 0, 8, [0, 0, 0, 0, 0, 0, 0, 1]⟩).2 = true
    ∧ addr_safety_check ⟨0x17C, 0, 8, [0, 0, 0, 0, 0, 0, 0, 1]⟩
        [⟨[⟨0x17C, 0, 8, true, 10000⟩]⟩] toyota_get_checksum toyota_compute_checksum = false :=
  ⟨(rx_checksum_checked_only_when_flagged generic_rx_checks state0
      ⟨0x17C, 0, 8, [0, 0, 0, 0, 0, 0, 0, 1]⟩).1
      ⟨⟨0x17C, 0, 8, false, 10000⟩, by decide, rfl, rfl, rfl⟩,
    (rx_checksum_checked_only_when_flagged generic_rx_checks state0
      ⟨0x17C, 0, 8, [0, 0, 0, 0, 0, 0, 0, 1]⟩).2
      ⟨0x17C, 0, 8, true, 10000⟩ rfl rfl rfl (by decide)⟩

/-! ## Claims on init -/

/-- C12: after `toyota_init p`, whatever the prior state, `controls_allowed`,
`gas_interceptor_detected` and `relay_malfunction` are false and
`toyota_dbc_eps_torque_factor = p`; and init is idempotent: calling it twice in
a row gives the state that one call gives. -/
theorem init_resets_flags_and_is_idempotent (s : EngineState) (p : Int) :
    (toyota_init s p).controls_allowed = false
    ∧ (toyota_init s p).gas_interceptor_detected = false
    ∧ (toyota_init s p).relay_malfunction = false
    ∧ (toyota_init s p).toyota_dbc_eps_torque_factor = p
    ∧ toyota_init (toyota_init s p) p = toyota_init s p := by
  refine ⟨rfl, rfl, rfl, rfl, rfl⟩

/-- C13 (as stated, refuted): in a state with `cruise_engaged_prev`,
`gas_pressed`, `brake_pressed`, `vehicle_moving` set, a rate memory of 5 and 7
and a non-empty measurement window, `toyota_init` leaves all of them as they
were. -/
theorem init_resets_all_fields_counterexample :
    (toyota_init
        { state0 with
          cruise_engaged_prev := true, gas_pressed := true, brake_pressed := true,
          vehicle_moving := true, desired_torque_last := 5, rt_torque_last := 7,
          torque_meas := { values := [3, 0, 0, 0, 0, 0], min := -1, max := 4 } } 100)
      = { state0 with
          cruise_engaged_prev := true, gas_pressed := true, brake_pressed := true,
          vehicle_moving := true, desired_torque_last := 5, rt_torque_last := 7,
          torque_meas := { values := [3, 0, 0, 0, 0, 0], min := -1, max := 4 } }
    ∧ (toyota_init
        { state0 with
          cruise_engaged_prev := true, gas_pressed := true, brake_pressed := true,
          vehicle_moving := true, desired_torque_last := 5, rt_torque_last := 7,
          torque_meas := { values := [3, 0, 0, 0, 0, 0], min := -1, max := 4 } }
        100).desired_torque_last ≠ 0 := by
  decide

/-- C13 (amended): `toyota_init p` writes only `controls_allowed`,
`relay_malfunction`, `gas_interceptor_detected` (to false) and
`toyota_dbc_eps_torque_factor` (to `p`); `cruise_engaged_prev`, `gas_pressed`,
`brake_pressed`, `vehicle_moving`, `desired_torque_last`, `rt_torque_last`,
the measurement window and every other field keep their prior values. -/
theorem init_writes_only_four_fields (s : EngineState) (p : Int) :
    toyota_init s p =
      { s with
        controls_allowed := false, relay_malfunction := false,
        gas_interceptor_detected := false, toyota_dbc_eps_torque_factor := p }
    ∧ (toyota_init s p).cruise_engaged_prev = s.cruise_engaged_prev
    ∧ (toyota_init s p).gas_pressed = s.gas_pressed
    ∧ (toyota_init s p).brake_pressed = s.brake_pressed
    ∧ (toyota_init s p).vehicle_moving = s.vehicle_moving
    ∧ (toyota_init s p).desired_torque_last = s.desired_torque_last
    ∧ (toyota_init s p).rt_torque_last = s.rt_torque_last
    ∧ (toyota_init s p).torque_meas = s.torque_meas
    ∧ (toyota_init s p).ts_last = s.ts_last := by
  refine ⟨rfl, rfl, rfl, rfl, rfl, rfl, rfl, rfl, rfl⟩

/-! ## Further claims on the steering check -/

/-- The elapsed ticks are the plain difference when the counter did not wrap. -/
theorem get_ts_elapsed_of_le (ts ts_last : Nat) (h : ts_last ≤ ts) (hts : ts < 2 ^ 32) :
    get_ts_elapsed ts ts_last = ts - ts_last := by
  unfold get_ts_elapsed
  have h1 : ts % 2 ^ 32 = ts := Nat.mod_eq_of_lt hts
  have h2 : ts_last % 2 ^ 32 = ts_last := Nat.mod_eq_of_lt (lt_of_le_of_lt h hts)
  rw [h1, h2]
  have h3 : ts + 2 ^ 32 - ts_last = (ts - ts_last) + 2 ^ 32 := by omega
  rw [h3, Nat.add_mod_right]
  exact Nat.mod_eq_of_lt (by omega)

/-- C14: with controls not allowed, every steering frame `0x2E4` on bus 0, of
zero or non-zero torque, leaves the rate memory reset:
`desired_torque_last = 0`, `rt_torque_last = 0` and `ts_last` the tick `ts` of
the call. -/
theorem tx_steer_resets_when_controls_not_allowed
    (s : EngineState) (ts : Nat) (f : Frame)
    (hc : s.controls_allowed = false)
    (haddr : GET_ADDR f = 0x2E4) (hbus : GET_BUS f = 0) :
    (toyota_tx_hook s ts f).1.desired_torque_last = 0
    ∧ (toyota_tx_hook s ts f).1.rt_torque_last = 0
    ∧ (toyota_tx_hook s ts f).1.ts_last = ts := by
  rw [toyota_tx_hook_blocks]
  simp [hbus, haddr, tx_steer_not_allowed s ts f hc]

/-- Witness of C14: a zero steering command at tick 42 in a state with
controls not allowed and a rate memory of 5 and 7. -/
theorem tx_steer_resets_when_controls_not_allowed_witness :
    (toyota_tx_hook { state0 with desired_torque_last := 5, rt_torque_last := 7 } 42
        ⟨0x2E4, 0, 8, [0, 0, 0, 0, 0, 0, 0, 0]⟩).1.desired_torque_last = 0
    ∧ (toyota_tx_hook { state0 with desired_torque_last := 5, rt_torque_last := 7 } 42
        ⟨0x2E4, 0, 8, [0, 0, 0, 0, 0, 0, 0, 0]⟩).1.rt_torque_last = 0
    ∧ (toyota_tx_hook { state0 with desired_torque_last := 5, rt_torque_last := 7 } 42
        ⟨0x2E4, 0, 8, [0, 0, 0, 0, 0, 0, 0, 0]⟩).1.ts_last = 42 :=
  tx_steer_resets_when_controls_not_allowed
    { state0 with desired_torque_last := 5, rt_torque_last := 7 } 42
    ⟨0x2E4, 0, 8, [0, 0, 0, 0, 0, 0, 0, 0]⟩ rfl rfl rfl

/-- The rate guard fires when the command exceeds the previous non-negative
command by more than the rate-up step. -/
theorem dist_to_meas_check_rate_up (val val_last : Int) (val_meas : sample_t)
    (up down err : Int) (hP : 0 ≤ val_last) (h : val > val_last + up) :
    dist_to_meas_check val val_last val_meas up down err = true := by
  simp only [dist_to_meas_check, Bool.or_eq_true, decide_eq_true_eq]
  right
  have h1 : max val_last 0 = val_last := max_eq_left hP
  rw [h1]
  exact lt_of_le_of_lt (min_le_left _ _) h

/-- C15: with controls allowed and previous command `P = desired_torque_last ≥ 0`,
a steering frame `0x2E4` on bus 0 whose decoded torque exceeds `P + 10` is a
violation in every measurement window and at every tick: the hook returns 0
and afterwards `desired_torque_last = 0` and `rt_torque_last = 0`. -/
theorem tx_steer_rate_up_violation
    (s : EngineState) (ts : Nat) (f : Frame)
    (hc : s.controls_allowed = true) (hP : 0 ≤ s.desired_torque_last)
    (haddr : GET_ADDR f = 0x2E4) (hbus : GET_BUS f = 0)
    (h : desired_torque f > s.desired_torque_last + 10) :
    (toyota_tx_hook s ts f).2 = 0
    ∧ (toyota_tx_hook s ts f).1.desired_torque_last = 0
    ∧ (toyota_tx_hook s ts f).1.rt_torque_last = 0 := by
  have hg : steer_guards s f = true := by
    have h2 : desired_torque f > s.desired_torque_last + TOYOTA_MAX_RATE_UP := h
    simp [steer_guards, dist_to_meas_check_rate_up _ _ s.torque_meas _ _ _ hP h2]
  rw [toyota_tx_hook_blocks]
  simp [hbus, haddr, tx_steer_allowed s ts f hc, hg]

/-- Witness of C15: previous command 0, new command 11. -/
theorem tx_steer_rate_up_violation_witness :
    desired_torque ⟨0x2E4, 0, 8, [0, 0, 11, 0, 0, 0, 0, 0]⟩ = 11
    ∧ (toyota_tx_hook { state0 with controls_allowed := true } 0
        ⟨0x2E4, 0, 8, [0, 0, 11, 0, 0, 0, 0, 0]⟩).2 = 0
    ∧ (toyota_tx_hook { state0 with controls_allowed := true } 0
        ⟨0x2E4, 0, 8, [0, 0, 11, 0, 0, 0, 0, 0]⟩).1.desired_torque_last = 0
    ∧ (toyota_tx_hook { state0 with controls_allowed := true } 0
        ⟨0x2E4, 0, 8, [0, 0, 11, 0, 0, 0, 0, 0]⟩).1.rt_torque_last = 0 :=
  ⟨by decide,
    tx_steer_rate_up_violation { state0 with controls_allowed := true } 0
      ⟨0x2E4, 0, 8, [0, 0, 11, 0, 0, 0, 0, 0]⟩ rfl (by decide) rfl rfl (by decide)⟩

/-- C16: with controls allowed and no guard firing on a steering frame `0x2E4`
on bus 0, `desired_torque_last` becomes the new command, and the real-time
reference is refreshed only once per interval: when at most 250000 ticks have
elapsed since `ts_last`, `rt_torque_last` and `ts_last` are unchanged; when
more have elapsed, `rt_torque_last` is the new command and `ts_last` the
current tick. -/
theorem tx_steer_accepts_and_refreshes_per_interval
    (s : EngineState) (ts : Nat) (f : Frame)
    (hc : s.controls_allowed = true)
    (haddr : GET_ADDR f = 0x2E4) (hbus : GET_BUS f = 0)
    (h1 : max_limit_check (desired_torque f) TOYOTA_MAX_TORQUE (-TOYOTA_MAX_TORQUE) = false)
    (h2 : dist_to_meas_check (desired_torque f) s.desired_torque_last s.torque_meas
            TOYOTA_MAX_RATE_UP TOYOTA_MAX_RATE_DOWN TOYOTA_MAX_TORQUE_ERROR = false)
    (h3 : rt_rate_limit_check (desired_torque f) s.rt_torque_last TOYOTA_MAX_RT_DELTA = false) :
    (toyota_tx_hook s ts f).1.desired_torque_last = desired_torque f
    ∧ (get_ts_elapsed ts s.ts_last ≤ 250000 →
        (toyota_tx_hook s ts f).1.rt_torque_last = s.rt_torque_last
          ∧ (toyota_tx_hook s ts f).1.ts_last = s.ts_last)
    ∧ (get_ts_elapsed ts s.ts_last > 250000 →
        (toyota_tx_hook s ts f).1.rt_torque_last = desired_torque f
          ∧ (toyota_tx_hook s ts f).1.ts_last = ts) := by
  have hg : steer_guards s f = false := by simp [steer_guards, h1, h2, h3]
  rw [toyota_tx_hook_blocks]
  simp only [hbus, haddr, if_true, tx_steer_allowed s ts f hc, hg]
  by_cases he : get_ts_elapsed ts s.ts_last > TOYOTA_RT_INTERVAL
  · have he2 : ¬ get_ts_elapsed ts s.ts_last ≤ 250000 := by
      simpa [TOYOTA_RT_INTERVAL] using he
    have he3 : get_ts_elapsed ts s.ts_last > 250000 := by
      simpa [TOYOTA_RT_INTERVAL] using he
    simp [he, he2, he3]
  · have he2 : get_ts_elapsed ts s.ts_last ≤ 250000 := by
      simpa [TOYOTA_RT_INTERVAL] using he
    have he3 : ¬ get_ts_elapsed ts s.ts_last > 250000 := by
      simpa [TOYOTA_RT_INTERVAL] using he
    simp [he, he2, he3]

/-- Witness of C16: a command of 5 after previous command 0, 100 ticks after
the last refresh (reference kept) and 300000 ticks after it (reference
refreshed). -/
theorem tx_steer_accepts_and_refreshes_per_interval_witness :
    ((toyota_tx_hook { state0 with controls_allowed := true } 100
        ⟨0x2E4, 0, 8, [0, 0, 5, 0, 0, 0, 0, 0]⟩).1.rt_torque_last = 0
      ∧ (toyota_tx_hook { state0 with controls_allowed := true } 100
        ⟨0x2E4, 0, 8, [0, 0, 5, 0, 0, 0, 0, 0]⟩).1.ts_last = 0)
    ∧ ((toyota_tx_hook { state0 with controls_allowed := true } 300000
        ⟨0x2E4, 0, 8, [0, 0, 5, 0, 0, 0, 0, 0]⟩).1.rt_torque_last
          = desired_torque ⟨0x2E4, 0, 8, [0, 0, 5, 0, 0, 0, 0, 0]⟩
      ∧ (toyota_tx_hook { state0 with controls_allowed := true } 300000
        ⟨0x2E4, 0, 8, [0, 0, 5, 0, 0, 0, 0, 0]⟩).1.ts_last = 300000) :=
  ⟨(tx_steer_accepts_and_refreshes_per_interval { state0 with controls_allowed := true } 100
      ⟨0x2E4, 0, 8, [0, 0, 5, 0, 0, 0, 0, 0]⟩ rfl rfl rfl
      (by decide) (by decide) (by decide)).2.1 (by decide),
   (tx_steer_accepts_and_refreshes_per_interval { state0 with controls_allowed := true } 300000
      ⟨0x2E4, 0, 8, [0, 0, 5, 0, 0, 0, 0, 0]⟩ rfl rfl rfl
      (by decide) (by decide) (by decide)).2.2 (by decide)⟩

/-! ## Claims on the hooks together -/

/-- The tx hook never writes `controls_allowed`. -/
theorem tx_hook_controls_allowed (s : EngineState) (ts : Nat) (f : Frame) :
    (toyota_tx_hook s ts f).1.controls_allowed = s.controls_allowed := by
  rw [toyota_tx_hook_blocks]
  by_cases hbus : GET_BUS f = 0
  · by_cases haddr : GET_ADDR f = 0x2E4
    · simp only [hbus, haddr, if_true]
      cases hc : s.controls_allowed
      · rw [tx_steer_not_allowed s ts f hc]
        exact hc
      · rw [tx_steer_allowed s ts f hc]
        simp only []
        split_ifs <;> exact hc
    · simp only [hbus, haddr, if_true, if_false]
  · simp only [hbus, if_false]

/-- The state updates of the rx hook write neither `desired_torque_last` nor
`rt_torque_last`. -/
theorem rx_update_rate_memory (s : EngineState) (f : Frame) :
    (toyota_rx_update s f).desired_torque_last = s.desired_torque_last
      ∧ (toyota_rx_update s f).rt_torque_last = s.rt_torque_last := by
  have h1 : ∀ st : EngineState, (rx_torque st f).desired_torque_last = st.desired_torque_last
      ∧ (rx_torque st f).rt_torque_last = st.rt_torque_last := by
    intro st; unfold rx_torque; split_ifs <;> exact ⟨rfl, rfl⟩
  have h2 : ∀ st : EngineState, (rx_cruise st f).desired_torque_last = st.desired_torque_last
      ∧ (rx_cruise st f).rt_torque_last = st.rt_torque_last := by
    intro st; unfold rx_cruise; simp only []; split_ifs <;> exact ⟨rfl, rfl⟩
  have h3 : ∀ st : EngineState, (rx_speed st f).desired_torque_last = st.desired_torque_last
      ∧ (rx_speed st f).rt_torque_last = st.rt_torque_last := by
    intro st; unfold rx_speed; split_ifs <;> exact ⟨rfl, rfl⟩
  have h4 : ∀ st : EngineState, (rx_brake st f).desired_torque_last = st.desired_torque_last
      ∧ (rx_brake st f).rt_torque_last = st.rt_torque_last := by
    intro st; unfold rx_brake; split_ifs <;> exact ⟨rfl, rfl⟩
  have h5 : ∀ st : EngineState, (rx_interceptor st f).desired_torque_last = st.desired_torque_last
      ∧ (rx_interceptor st f).rt_torque_last = st.rt_torque_last := by
    intro st; unfold rx_interceptor; split_ifs <;> exact ⟨rfl, rfl⟩
  rw [toyota_rx_update_blocks]
  constructor
  · rw [(h5 _).1, (h4 _).1, (h3 _).1, (h2 _).1, (h1 _).1]
  · rw [(h5 _).2, (h4 _).2, (h3 _).2, (h2 _).2, (h1 _).2]

/-- The modelled instance of `generic_rx_checks` writes none of the rate
memory, the interceptor flag, `gas_pressed` and the measurement window. -/
theorem generic_rx_checks_frame (b : Bool) (st : EngineState) :
    (generic_rx_checks b st).desired_torque_last = st.desired_torque_last
    ∧ (generic_rx_checks b st).rt_torque_last = st.rt_torque_last
    ∧ (generic_rx_checks b st).gas_interceptor_detected = st.gas_interceptor_detected
    ∧ (generic_rx_checks b st).gas_pressed = st.gas_pressed
    ∧ (generic_rx_checks b st).torque_meas = st.torque_meas := by
  exact ⟨rfl, rfl, rfl, rfl, rfl⟩

/-- C17 (as stated, refuted): `toyota_init` turns `controls_allowed` from
true to false and leaves a rate memory of 5 and 7 in place; and on the
reachable state where controls are allowed and a steering command of 5 has
been remembered, the rx hook on a `0x164` frame with the engagement bit clear
turns `controls_allowed` to false and leaves `desired_torque_last = 5` and
`rt_torque_last = 5`. -/
theorem controls_exit_resets_rate_memory_counterexample :
    ( (toyota_init state_engaged_5_7 100).controls_allowed = false
      ∧ (toyota_init state_engaged_5_7 100).desired_torque_last = 5
      ∧ (toyota_init state_engaged_5_7 100).rt_torque_last = 7 )
    ∧ ( (run generic_rx_checks state0
          [.init 100,
           .rx (toyota_rx_valid ⟨0x164, 0, 8, [0x30, 0, 0, 0, 0, 0, 0, 0]⟩)
             ⟨0x164, 0, 8, [0x30, 0, 0, 0, 0, 0, 0, 0]⟩,
           .tx 300000 ⟨0x2E4, 0, 8, [0, 0, 5, 0, 0, 0, 0, 0]⟩]).controls_allowed = true
      ∧ (run generic_rx_checks state0
          [.init 100,
           .rx (toyota_rx_valid ⟨0x164, 0, 8, [0x30, 0, 0, 0, 0, 0, 0, 0]⟩)
             ⟨0x164, 0, 8, [0x30, 0, 0, 0, 0, 0, 0, 0]⟩,
           .tx 300000 ⟨0x2E4, 0, 8, [0, 0, 5, 0, 0, 0, 0, 0]⟩,
           .rx (toyota_rx_valid ⟨0x164, 0, 8, [0x10, 0, 0, 0, 0, 0, 0, 0]⟩)
             ⟨0x164, 0, 8, [0x10, 0, 0, 0, 0, 0, 0, 0]⟩]).controls_allowed = false
      ∧ (run generic_rx_checks state0
          [.init 100,
           .rx (toyota_rx_valid ⟨0x164, 0, 8, [0x30, 0, 0, 0, 0, 0, 0, 0]⟩)
             ⟨0x164, 0, 8, [0x30, 0, 0, 0, 0, 0, 0, 0]⟩,
           .tx 300000 ⟨0x2E4, 0, 8, [0, 0, 5, 0, 0, 0, 0, 0]⟩,
           .rx (toyota_rx_valid ⟨0x164, 0, 8, [0x10, 0, 0, 0, 0, 0, 0, 0]⟩)
             ⟨0x164, 0, 8, [0x10, 0, 0, 0, 0, 0, 0, 0]⟩]).desired_torque_last = 5
      ∧ (run generic_rx_checks state0
          [.init 100,
           .rx (toyota_rx_valid ⟨0x164, 0, 8, [0x30, 0, 0, 0, 0, 0, 0, 0]⟩)
             ⟨0x164, 0, 8, [0x30, 0, 0, 0, 0, 0, 0, 0]⟩,
           .tx 300000 ⟨0x2E4, 0, 8, [0, 0, 5, 0, 0, 0, 0, 0]⟩,
           .rx (toyota_rx_valid ⟨0x164, 0, 8, [0x10, 0, 0, 0, 0, 0, 0, 0]⟩)
             ⟨0x164, 0, 8, [0x10, 0, 0, 0, 0, 0, 0, 0]⟩]).rt_torque_last = 5 ) := by
  decide

/-- C17 (amended): provided `generic_rx_checks` writes neither field, the rx
hook and `toyota_init` leave `desired_torque_last` and `rt_torque_last` as they
were, also when they turn `controls_allowed` from true to false; the tx hook
never changes `controls_allowed`; and the two fields are 0 after every
steering frame `0x2E4` on bus 0 that the tx hook processes while
`controls_allowed` is false. -/
theorem controls_exit_keeps_rate_memory_until_next_steer
    (G : Bool → EngineState → EngineState)
    (hG : ∀ b st, (G b st).desired_torque_last = st.desired_torque_last
        ∧ (G b st).rt_torque_last = st.rt_torque_last)
    (s : EngineState) :
    (∀ valid f, (toyota_rx_hook G valid s f).1.desired_torque_last = s.desired_torque_last
        ∧ (toyota_rx_hook G valid s f).1.rt_torque_last = s.rt_torque_last)
    ∧ (∀ p, (toyota_init s p).desired_torque_last = s.desired_torque_last
        ∧ (toyota_init s p).rt_torque_last = s.rt_torque_last)
    ∧ (∀ ts f, (toyota_tx_hook s ts f).1.controls_allowed = s.controls_allowed)
    ∧ (∀ ts f, s.controls_allowed = false → GET_ADDR f = 0x2E4 → GET_BUS f = 0 →
        (toyota_tx_hook s ts f).1.desired_torque_last = 0
          ∧ (toyota_tx_hook s ts f).1.rt_torque_last = 0) := by
  refine ⟨?_, fun p => ⟨rfl, rfl⟩, fun ts f => tx_hook_controls_allowed s ts f, ?_⟩
  · intro valid f
    rw [rx_hook_eq]
    split_ifs
    · rw [(hG _ _).1, (hG _ _).2]
      exact rx_update_rate_memory s f
    · exact ⟨rfl, rfl⟩
  · intro ts f hc haddr hbus
    rw [toyota_tx_hook_blocks]
    simp [hbus, haddr, tx_steer_not_allowed s ts f hc]

/-- Witness of C17 (amended), with the modelled `generic_rx_checks`: after a
`0x164` frame with the engagement bit clear the rate memory 5 is still there,
and the next steering frame resets it. -/
theorem controls_exit_keeps_rate_memory_until_next_steer_witness :
    (toyota_rx_hook generic_rx_checks true
        { state0 with controls_allowed := true, desired_torque_last := 5 }
        ⟨0x164, 0, 8, [0x10, 0, 0, 0, 0, 0, 0, 0]⟩).1.desired_torque_last = 5
    ∧ (toyota_tx_hook { state0 with desired_torque_last := 5 } 0
        ⟨0x2E4, 0, 8, [0, 0, 0, 0, 0, 0, 0, 0]⟩).1.desired_torque_last = 0 :=
  ⟨((controls_exit_keeps_rate_memory_until_next_steer generic_rx_checks
        (fun b st => ⟨(generic_rx_checks_frame b st).1, (generic_rx_checks_frame b st).2.1⟩)
        { state0 with controls_allowed := true, desired_torque_last := 5 }).1 true
        ⟨0x164, 0, 8, [0x10, 0, 0, 0, 0, 0, 0, 0]⟩).1,
   ((controls_exit_keeps_rate_memory_until_next_steer generic_rx_checks
        (fun b st => ⟨(generic_rx_checks_frame b st).1, (generic_rx_checks_frame b st).2.1⟩)
        { state0 with desired_torque_last := 5 }).2.2.2 0
        ⟨0x2E4, 0, 8, [0, 0, 0, 0, 0, 0, 0, 0]⟩ rfl rfl rfl).1⟩

/-- C18: when the address check reports the frame invalid, or the frame is
not on bus 0, the rx hook leaves the whole state as it was (so
`controls_allowed`, `cruise_engaged_prev`, `gas_pressed`, `brake_pressed`,
`vehicle_moving`, `gas_interceptor_detected`, `gas_interceptor_prev` and the
measurement window are unchanged) and returns the validity verdict. -/
theorem rx_invalid_or_off_bus_leaves_state
    (G : Bool → EngineState → EngineState) (valid : Bool) (s : EngineState) (f : Frame)
    (h : valid = false ∨ GET_BUS f ≠ 0) :
    (toyota_rx_hook G valid s f).1 = s ∧ (toyota_rx_hook G valid s f).2 = valid := by
  refine ⟨?_, rx_hook_snd G valid s f⟩
  rw [rx_hook_eq]
  have hn : ¬ (valid = true ∧ GET_BUS f = 0) := by
    rintro ⟨hv, hb⟩
    rcases h with h | h
    · rw [hv] at h
      exact Bool.noConfusion h
    · exact h hb
  rw [if_neg hn]

/-- Witness of C18: an engagement frame on bus 1, and a frame `0x156` of the
wrong length, which the address check reports invalid. -/
theorem rx_invalid_or_off_bus_leaves_state_witness :
    ((toyota_rx_hook generic_rx_checks true state0
          ⟨0x164, 1, 8, [0x30, 0, 0, 0, 0, 0, 0, 0]⟩).1 = state0
      ∧ (toyota_rx_hook generic_rx_checks true state0
          ⟨0x164, 1, 8, [0x30, 0, 0, 0, 0, 0, 0, 0]⟩).2 = true)
    ∧ toyota_rx_valid ⟨0x156, 0, 8, [0, 0, 0, 0, 0, 0, 0, 0]⟩ = false
    ∧ ((toyota_rx_hook generic_rx_checks
          (toyota_rx_valid ⟨0x156, 0, 8, [0, 0, 0, 0, 0, 0, 0, 0]⟩) state_iso
          ⟨0x156, 0, 8, [0, 0, 0, 0, 0, 0, 0, 0]⟩).1 = state_iso
      ∧ (toyota_rx_hook generic_rx_checks
          (toyota_rx_valid ⟨0x156, 0, 8, [0, 0, 0, 0, 0, 0, 0, 0]⟩) state_iso
          ⟨0x156, 0, 8, [0, 0, 0, 0, 0, 0, 0, 0]⟩).2
        = toyota_rx_valid ⟨0x156, 0, 8, [0, 0, 0, 0, 0, 0, 0, 0]⟩) :=
  ⟨rx_invalid_or_off_bus_leaves_state generic_rx_checks true state0
      ⟨0x164, 1, 8, [0x30, 0, 0, 0, 0, 0, 0, 0]⟩ (Or.inr (by decide)),
    by decide,
    rx_invalid_or_off_bus_leaves_state generic_rx_checks
      (toyota_rx_valid ⟨0x156, 0, 8, [0, 0, 0, 0, 0, 0, 0, 0]⟩) state_iso
      ⟨0x156, 0, 8, [0, 0, 0, 0, 0, 0, 0, 0]⟩ (Or.inl (by decide))⟩

/-! ## Claims on the gas interceptor -/

/-- The tx hook writes none of `gas_interceptor_detected`, `gas_pressed` and
`torque_meas`. -/
theorem tx_hook_other_fields (s : EngineState) (ts : Nat) (f : Frame) :
    (toyota_tx_hook s ts f).1.gas_interceptor_detected = s.gas_interceptor_detected
    ∧ (toyota_tx_hook s ts f).1.gas_pressed = s.gas_pressed
    ∧ (toyota_tx_hook s ts f).1.torque_meas = s.torque_meas := by
  rw [toyota_tx_hook_blocks]
  by_cases hbus : GET_BUS f = 0
  · by_cases haddr : GET_ADDR f = 0x2E4
    · simp only [hbus, haddr, if_true]
      cases hc : s.controls_allowed
      · rw [tx_steer_not_allowed s ts f hc]
        exact ⟨rfl, rfl, rfl⟩
      · rw [tx_steer_allowed s ts f hc]
        simp only []
        split_ifs <;> exact ⟨rfl, rfl, rfl⟩
    · simp [hbus, haddr]
  · simp [hbus]

/-- The interceptor reading is the halved sum of the two big-endian tracks. -/
theorem TOYOTA_GET_INTERCEPTOR_eq (f : Frame) :
    TOYOTA_GET_INTERCEPTOR f =
      (((256 * GET_BYTE f 0 + GET_BYTE f 1 + 256 * GET_BYTE f 2 + GET_BYTE f 3) / 2 : Nat) : Int) := by
  unfold TOYOTA_GET_INTERCEPTOR
  rw [Nat.shiftLeft_eq, Nat.shiftLeft_eq]
  have h : GET_BYTE f 0 * 2 ^ 8 + GET_BYTE f 1 + GET_BYTE f 2 * 2 ^ 8 + GET_BYTE f 3
      = 256 * GET_BYTE f 0 + GET_BYTE f 1 + 256 * GET_BYTE f 2 + GET_BYTE f 3 := by
    norm_num
    ring
  rw [h]
  rw [Int.tdiv_eq_ediv (by positivity) (by norm_num)]
  norm_cast

/-- What the state updates of the rx hook do to `gas_interceptor_detected`:
only a `0x201` frame writes it, to true. -/
theorem rx_update_gas_interceptor_detected (s : EngineState) (f : Frame) :
    (toyota_rx_update s f).gas_interceptor_detected =
      if GET_ADDR f = 0x201 then true else s.gas_interceptor_detected := by
  have h1 : ∀ st : EngineState,
      (rx_torque st f).gas_interceptor_detected = st.gas_interceptor_detected := by
    intro st; unfold rx_torque; split_ifs <;> rfl
  have h2 : ∀ st : EngineState,
      (rx_cruise st f).gas_interceptor_detected = st.gas_interceptor_detected := by
    intro st; unfold rx_cruise; simp only []; split_ifs <;> rfl
  have h3 : ∀ st : EngineState,
      (rx_speed st f).gas_interceptor_detected = st.gas_interceptor_detected := by
    intro st; unfold rx_speed; split_ifs <;> rfl
  have h4 : ∀ st : EngineState,
      (rx_brake st f).gas_interceptor_detected = st.gas_interceptor_detected := by
    intro st; unfold rx_brake; split_ifs <;> rfl
  rw [toyota_rx_update_blocks]
  unfold rx_interceptor
  split_ifs
  · rfl
  · rw [h4, h3, h2, h1]

/-- What the state updates of the rx hook do to `gas_pressed`: a `0x201` frame
sets it from the interceptor reading; a `0x164` frame sets it from bit 4 of
byte 0 only while no interceptor has been detected; no other frame writes
it. -/
theorem rx_update_gas_pressed (s : EngineState) (f : Frame) :
    (toyota_rx_update s f).gas_pressed =
      if GET_ADDR f = 0x201 then decide (TOYOTA_GET_INTERCEPTOR f > TOYOTA_GAS_INTERCEPTOR_THRSLD)
      else if GET_ADDR f = 0x164 ∧ s.gas_interceptor_detected = false then
        decide (((GET_BYTE f 0 >>> 4) &&& 1) = 0)
      else s.gas_pressed := by
  have h1 : ∀ st : EngineState, (rx_torque st f).gas_pressed = st.gas_pressed
      ∧ (rx_torque st f).gas_interceptor_detected = st.gas_interceptor_detected := by
    intro st; unfold rx_torque; split_ifs <;> exact ⟨rfl, rfl⟩
  have h2 : ∀ st : EngineState, (rx_cruise st f).gas_pressed =
      if GET_ADDR f = 0x164 ∧ st.gas_interceptor_detected = false then
        decide (((GET_BYTE f 0 >>> 4) &&& 1) = 0)
      else st.gas_pressed := by
    intro st
    by_cases ha : GET_ADDR f = 0x164
    · by_cases hb : GET_BYTE f 0 &&& 0x20 = 0
      · cases hi : st.gas_interceptor_detected <;> simp [rx_cruise, ha, hb, hi]
      · cases hp : st.cruise_engaged_prev <;> cases hi : st.gas_interceptor_detected <;>
          simp [rx_cruise, ha, hb, hp, hi]
    · simp [rx_cruise, ha]
  have h3 : ∀ st : EngineState, (rx_speed st f).gas_pressed = st.gas_pressed := by
    intro st; unfold rx_speed; split_ifs <;> rfl
  have h4 : ∀ st : EngineState, (rx_brake st f).gas_pressed = st.gas_pressed := by
    intro st; unfold rx_brake; split_ifs <;> rfl
  rw [toyota_rx_update_blocks]
  by_cases ha : GET_ADDR f = 0x201
  · simp [rx_interceptor, ha]
  · have h5 : ∀ st : EngineState, (rx_interceptor st f).gas_pressed = st.gas_pressed := by
      intro st; simp [rx_interceptor, ha]
    rw [h5, h4, h3, h2, (h1 s).1, (h1 s).2, if_neg ha]

/-- A hook call other than init keeps `gas_interceptor_detected` set, provided
`generic_rx_checks` does not write it. -/
theorem step_keeps_interceptor_detected (G : Bool → EngineState → EngineState)
    (hG : ∀ b st, (G b st).gas_interceptor_detected = st.gas_interceptor_detected)
    (s : EngineState) (c : HookCall) (hc : c.isInit = false)
    (h : s.gas_interceptor_detected = true) :
    (step G s c).gas_interceptor_detected = true := by
  cases c with
  | rx valid f =>
    simp only [step]
    rw [rx_hook_eq]
    split_ifs
    · rw [hG, rx_update_gas_interceptor_detected]
      split_ifs
      · rfl
      · exact h
    · exact h
  | tx ts f =>
    simp only [step]
    rw [(tx_hook_other_fields s ts f).1]
    exact h
  | fwd b f => exact h
  | init p => exact absurd hc (by simp [HookCall.isInit])

/-- A sequence of hook calls without init keeps `gas_interceptor_detected`
set, provided `generic_rx_checks` does not write it. -/
theorem run_keeps_interceptor_detected (G : Bool → EngineState → EngineState)
    (hG : ∀ b st, (G b st).gas_interceptor_detected = st.gas_interceptor_detected)
    (calls : List HookCall) :
    ∀ s : EngineState, (∀ c ∈ calls, c.isInit = false) →
      s.gas_interceptor_detected = true →
      (run G s calls).gas_interceptor_detected = true := by
  induction calls with
  | nil => intro s _ h; exact h
  | cons c cs ih =>
    intro s hcs h
    have hstep := step_keeps_interceptor_detected G hG s c
      (hcs c (List.mem_cons_self c cs)) h
    exact ih (step G s c) (fun c2 hc2 => hcs c2 (List.mem_cons_of_mem c hc2)) hstep

/-- C19: provided `generic_rx_checks` writes neither `gas_interceptor_detected`
nor `gas_pressed`: after the rx hook has processed a valid bus-0 frame `0x201`,
`gas_interceptor_detected` is true after every later sequence of rx, tx and
fwd calls that holds no init call; while it is true, an rx frame of any id but
`0x201` (such as `0x164`) and a tx frame leave `gas_pressed` unchanged; and a
valid bus-0 frame `0x201` sets `gas_pressed` to the truth of
`((byte0 << 8) + byte1 + (byte2 << 8) + byte3) / 2 > 845`. -/
theorem interceptor_detection_sticky
    (G : Bool → EngineState → EngineState)
    (hG : ∀ b st, (G b st).gas_interceptor_detected = st.gas_interceptor_detected
        ∧ (G b st).gas_pressed = st.gas_pressed)
    (s : EngineState) :
    (∀ f calls, GET_BUS f = 0 → GET_ADDR f = 0x201 → (∀ c ∈ calls, c.isInit = false) →
        (run G (toyota_rx_hook G true s f).1 calls).gas_interceptor_detected = true)
    ∧ (s.gas_interceptor_detected = true → ∀ valid f, GET_ADDR f ≠ 0x201 →
        (toyota_rx_hook G valid s f).1.gas_pressed = s.gas_pressed)
    ∧ (∀ ts f, (toyota_tx_hook s ts f).1.gas_pressed = s.gas_pressed)
    ∧ (∀ f, GET_BUS f = 0 → GET_ADDR f = 0x201 →
        (toyota_rx_hook G true s f).1.gas_pressed =
          decide (845 < (256 * GET_BYTE f 0 + GET_BYTE f 1
                          + 256 * GET_BYTE f 2 + GET_BYTE f 3) / 2)) := by
  refine ⟨?_, ?_, fun ts f => (tx_hook_other_fields s ts f).2.1, ?_⟩
  · intro f calls hbus haddr hcalls
    apply run_keeps_interceptor_detected G (fun b st => (hG b st).1) calls _ hcalls
    rw [rx_hook_eq, if_pos ⟨rfl, hbus⟩, (hG _ _).1, rx_update_gas_interceptor_detected,
      if_pos haddr]
  · intro hdet valid f hne
    rw [rx_hook_eq]
    split_ifs
    · rw [(hG _ _).2, rx_update_gas_pressed, if_neg hne]
      have hn : ¬ (GET_ADDR f = 0x164 ∧ s.gas_interceptor_detected = false) := by
        rintro ⟨_, h2⟩
        rw [hdet] at h2
        exact Bool.noConfusion h2
      rw [if_neg hn]
    · rfl
  · intro f hbus haddr
    rw [rx_hook_eq, if_pos ⟨rfl, hbus⟩, (hG _ _).2, rx_update_gas_pressed, if_pos haddr,
      TOYOTA_GET_INTERCEPTOR_eq]
    simp only [TOYOTA_GAS_INTERCEPTOR_THRSLD, gt_iff_lt, decide_eq_decide]
    norm_cast

/-- Witness of C19, with the modelled `generic_rx_checks`: after the
interceptor frame with both tracks at 1000, a `0x164` frame whose gas bit
reads as not pressed and a steering frame leave `gas_interceptor_detected` set;
the `0x164` frame leaves `gas_pressed` as the interceptor frame set it. -/
theorem interceptor_detection_sticky_witness :
    (run generic_rx_checks
        (toyota_rx_hook generic_rx_checks true state0 ⟨0x201, 0, 6, [3, 232, 3, 232, 0, 0]⟩).1
        [.rx true ⟨0x164, 0, 8, [0x10, 0, 0, 0, 0, 0, 0, 0]⟩,
         .tx 0 ⟨0x2E4, 0, 8, [0, 0, 0, 0, 0, 0, 0, 0]⟩,
         .fwd 2 ⟨0x2E4, 2, 8, []⟩]).gas_interceptor_detected = true
    ∧ (toyota_rx_hook generic_rx_checks true state0
        ⟨0x201, 0, 6, [3, 232, 3, 232, 0, 0]⟩).1.gas_pressed = true
    ∧ (toyota_rx_hook generic_rx_checks true
        (toyota_rx_hook generic_rx_checks true state0 ⟨0x201, 0, 6, [3, 232, 3, 232, 0, 0]⟩).1
        ⟨0x164, 0, 8, [0x10, 0, 0, 0, 0, 0, 0, 0]⟩).1.gas_pressed = true :=
  ⟨(interceptor_detection_sticky generic_rx_checks
      (fun b st => ⟨(generic_rx_checks_frame b st).2.2.1, (generic_rx_checks_frame b st).2.2.2.1⟩)
      state0).1 ⟨0x201, 0, 6, [3, 232, 3, 232, 0, 0]⟩ _ rfl rfl (by decide),
   by decide,
   ((interceptor_detection_sticky generic_rx_checks
      (fun b st => ⟨(generic_rx_checks_frame b st).2.2.1, (generic_rx_checks_frame b st).2.2.2.1⟩)
      (toyota_rx_hook generic_rx_checks true state0 ⟨0x201, 0, 6, [3, 232, 3, 232, 0, 0]⟩).1).2.1
      (by decide) true ⟨0x164, 0, 8, [0x10, 0, 0, 0, 0, 0, 0, 0]⟩ (by decide)).trans (by decide)⟩

/-! ## Claims on the torque measurement window -/

/-- The decoded eps torque is the two's-complement reading of the big-endian
16-bit word made of payload bytes 5 and 6. -/
theorem torque_meas_raw_eq (f : Frame) :
    torque_meas_raw f =
      if 32768 ≤ 256 * GET_BYTE f 5 + GET_BYTE f 6
      then (256 * GET_BYTE f 5 + GET_BYTE f 6 : Int) - 65536
      else (256 * GET_BYTE f 5 + GET_BYTE f 6 : Int) := by
  unfold torque_meas_raw to_signed
  rw [shl8_or_eq _ _ (GET_BYTE_lt f 6)]
  by_cases h : 32768 ≤ 256 * GET_BYTE f 5 + GET_BYTE f 6
  · rw [if_pos h, if_pos (by push_cast; norm_num; omega)]
    push_cast; norm_num
  · rw [if_neg h, if_neg (by push_cast; norm_num; omega)]
    push_cast; rfl

/-- The decoded eps torque is a signed 16-bit value. -/
theorem torque_meas_raw_range (f : Frame) :
    -32768 ≤ torque_meas_raw f ∧ torque_meas_raw f ≤ 32767 := by
  rw [torque_meas_raw_eq]
  have h5 := GET_BYTE_lt f 5
  have h6 := GET_BYTE_lt f 6
  split_ifs with h <;> constructor <;> omega

theorem foldl_min_le (l : List Int) : ∀ a : Int,
    l.foldl min a ≤ a ∧ ∀ v ∈ l, l.foldl min a ≤ v := by
  induction l with
  | nil => intro a; exact ⟨le_refl _, fun v hv => absurd hv (List.not_mem_nil v)⟩
  | cons x xs ih =>
    intro a
    have h := ih (min a x)
    rw [List.foldl_cons]
    refine ⟨le_trans h.1 (min_le_left a x), ?_⟩
    intro v hv
    rcases List.mem_cons.mp hv with rfl | hv
    · exact le_trans h.1 (min_le_right a v)
    · exact h.2 v hv

theorem foldl_min_mem (l : List Int) : ∀ a : Int,
    l.foldl min a = a ∨ l.foldl min a ∈ l := by
  induction l with
  | nil => intro a; exact Or.inl rfl
  | cons x xs ih =>
    intro a
    rw [List.foldl_cons]
    rcases ih (min a x) with h | h
    · rcases min_choice a x with h2 | h2
      · exact Or.inl (by rw [h, h2])
      · exact Or.inr (by rw [h, h2]; exact List.mem_cons_self x xs)
    · exact Or.inr (List.mem_cons_of_mem x h)

theorem foldl_max_ge (l : List Int) : ∀ a : Int,
    a ≤ l.foldl max a ∧ ∀ v ∈ l, v ≤ l.foldl max a := by
  induction l with
  | nil => intro a; exact ⟨le_refl _, fun v hv => absurd hv (List.not_mem_nil v)⟩
  | cons x xs ih =>
    intro a
    have h := ih (max a x)
    rw [List.foldl_cons]
    refine ⟨le_trans (le_max_left a x) h.1, ?_⟩
    intro v hv
    rcases List.mem_cons.mp hv with rfl | hv
    · exact le_trans (le_max_right a v) h.1
    · exact h.2 v hv

theorem foldl_max_mem (l : List Int) : ∀ a : Int,
    l.foldl max a = a ∨ l.foldl max a ∈ l := by
  induction l with
  | nil => intro a; exact Or.inl rfl
  | cons x xs ih =>
    intro a
    rw [List.foldl_cons]
    rcases ih (max a x) with h | h
    · rcases max_choice a x with h2 | h2
      · exact Or.inl (by rw [h, h2])
      · exact Or.inr (by rw [h, h2]; exact List.mem_cons_self x xs)
    · exact Or.inr (List.mem_cons_of_mem x h)

/-- The modelled `update_sample` retains the new sample in front of the five
newest old ones, and its `min` and `max` are the smallest and the largest
retained sample. -/
theorem update_sample_spec (sample : sample_t) (x : Int) :
    (update_sample sample x).values = x :: sample.values.take 5
    ∧ (∀ v ∈ (update_sample sample x).values, (update_sample sample x).min ≤ v)
    ∧ (update_sample sample x).min ∈ (update_sample sample x).values
    ∧ (∀ v ∈ (update_sample sample x).values, v ≤ (update_sample sample x).max)
    ∧ (update_sample sample x).max ∈ (update_sample sample x).values := by
  refine ⟨rfl, ?_, ?_, ?_, ?_⟩
  · exact (foldl_min_le (x :: sample.values.take 5) x).2
  · show (x :: sample.values.take 5).foldl min x ∈ x :: sample.values.take 5
    rcases foldl_min_mem (x :: sample.values.take 5) x with h | h
    · rw [h]; exact List.mem_cons_self _ _
    · exact h
  · exact (foldl_max_ge (x :: sample.values.take 5) x).2
  · show (x :: sample.values.take 5).foldl max x ∈ x :: sample.values.take 5
    rcases foldl_max_mem (x :: sample.values.take 5) x with h | h
    · rw [h]; exact List.mem_cons_self _ _
    · exact h

/-- What the state updates of the rx hook do to the measurement window: only
a `0x260` frame writes it, feeding the scaled sample and padding the bounds by
one. -/
theorem rx_update_torque_meas (s : EngineState) (f : Frame) :
    (toyota_rx_update s f).torque_meas =
      if GET_ADDR f = 0x260 then
        { update_sample s.torque_meas
            ((torque_meas_raw f * s.toyota_dbc_eps_torque_factor).tdiv 100) with
          min := (update_sample s.torque_meas
            ((torque_meas_raw f * s.toyota_dbc_eps_torque_factor).tdiv 100)).min - 1
          max := (update_sample s.torque_meas
            ((torque_meas_raw f * s.toyota_dbc_eps_torque_factor).tdiv 100)).max + 1 }
      else s.torque_meas := by
  have h2 : ∀ st : EngineState, (rx_cruise st f).torque_meas = st.torque_meas := by
    intro st; unfold rx_cruise; simp only []; split_ifs <;> rfl
  have h3 : ∀ st : EngineState, (rx_speed st f).torque_meas = st.torque_meas := by
    intro st; unfold rx_speed; split_ifs <;> rfl
  have h4 : ∀ st : EngineState, (rx_brake st f).torque_meas = st.torque_meas := by
    intro st; unfold rx_brake; split_ifs <;> rfl
  have h5 : ∀ st : EngineState, (rx_interceptor st f).torque_meas = st.torque_meas := by
    intro st; unfold rx_interceptor; split_ifs <;> rfl
  rw [toyota_rx_update_blocks, h5, h4, h3, h2]
  unfold rx_torque torque_meas_raw
  split_ifs <;> rfl

/-- The state updates of the rx hook keep `torque_meas.min ≤ torque_meas.max`. -/
theorem rx_update_keeps_min_le_max (s : EngineState) (f : Frame)
    (h : s.torque_meas.min ≤ s.torque_meas.max) :
    (toyota_rx_update s f).torque_meas.min ≤ (toyota_rx_update s f).torque_meas.max := by
  rw [rx_update_torque_meas]
  split_ifs
  · have hs := update_sample_spec s.torque_meas
      ((torque_meas_raw f * s.toyota_dbc_eps_torque_factor).tdiv 100)
    have hle := hs.2.2.2.1 _ hs.2.2.1
    show _ - 1 ≤ _ + 1
    omega
  · exact h

/-- Every hook call keeps `torque_meas.min ≤ torque_meas.max`, provided
`generic_rx_checks` does not write the window. -/
theorem step_keeps_min_le_max (G : Bool → EngineState → EngineState)
    (hG : ∀ b st, (G b st).torque_meas = st.torque_meas)
    (s : EngineState) (c : HookCall) (h : s.torque_meas.min ≤ s.torque_meas.max) :
    (step G s c).torque_meas.min ≤ (step G s c).torque_meas.max := by
  cases c with
  | rx valid f =>
    simp only [step]
    rw [rx_hook_eq]
    split_ifs
    · rw [hG]
      exact rx_update_keeps_min_le_max s f h
    · exact h
  | tx ts f =>
    simp only [step]
    rw [(tx_hook_other_fields s ts f).2.2]
    exact h
  | fwd b f => exact h
  | init p => exact h

/-- Every sequence of hook calls keeps `torque_meas.min ≤ torque_meas.max`,
provided `generic_rx_checks` does not write the window. -/
theorem run_keeps_min_le_max (G : Bool → EngineState → EngineState)
    (hG : ∀ b st, (G b st).torque_meas = st.torque_meas)
    (calls : List HookCall) :
    ∀ s : EngineState, s.torque_meas.min ≤ s.torque_meas.max →
      (run G s calls).torque_meas.min ≤ (run G s calls).torque_meas.max := by
  induction calls with
  | nil => intro s h; exact h
  | cons c cs ih =>
    intro s h
    exact ih (step G s c) (step_keeps_min_le_max G hG s c h)

/-- C20: provided `generic_rx_checks` does not write the window, a valid bus-0
frame `0x260` feeds into the sample window the value `(raw * factor) / 100`
truncated toward zero, where `raw` is the signed 16-bit big-endian value of
payload bytes 5 and 6 and `factor` a 16-bit scaling factor (the product fits in
32 bits); afterwards `torque_meas.min` is one less than the smallest retained
sample and `torque_meas.max` one more than the largest, so that
`min ≤ sample ≤ max` for every retained sample; and
`torque_meas.min ≤ torque_meas.max` holds after every sequence of hook calls
from the boot state `state0`. -/
theorem rx_torque_feeds_padded_window
    (G : Bool → EngineState → EngineState)
    (hG : ∀ b st, (G b st).torque_meas = st.torque_meas)
    (s : EngineState) (f : Frame)
    (hbus : GET_BUS f = 0) (haddr : GET_ADDR f = 0x260)
    (hfac : -32768 ≤ s.toyota_dbc_eps_torque_factor ∧ s.toyota_dbc_eps_torque_factor ≤ 32767) :
    (-2 ^ 31 ≤ torque_meas_raw f * s.toyota_dbc_eps_torque_factor
      ∧ torque_meas_raw f * s.toyota_dbc_eps_torque_factor < 2 ^ 31)
    ∧ (toyota_rx_hook G true s f).1.torque_meas.values =
        (torque_meas_raw f * s.toyota_dbc_eps_torque_factor).tdiv 100
          :: s.torque_meas.values.take 5
    ∧ (∀ v ∈ (toyota_rx_hook G true s f).1.torque_meas.values,
        (toyota_rx_hook G true s f).1.torque_meas.min + 1 ≤ v)
    ∧ (toyota_rx_hook G true s f).1.torque_meas.min + 1
        ∈ (toyota_rx_hook G true s f).1.torque_meas.values
    ∧ (∀ v ∈ (toyota_rx_hook G true s f).1.torque_meas.values,
        v ≤ (toyota_rx_hook G true s f).1.torque_meas.max - 1)
    ∧ (toyota_rx_hook G true s f).1.torque_meas.max - 1
        ∈ (toyota_rx_hook G true s f).1.torque_meas.values
    ∧ (∀ v ∈ (toyota_rx_hook G true s f).1.torque_meas.values,
        (toyota_rx_hook G true s f).1.torque_meas.min ≤ v
          ∧ v ≤ (toyota_rx_hook G true s f).1.torque_meas.max)
    ∧ (∀ calls, (run G state0 calls).torque_meas.min ≤ (run G state0 calls).torque_meas.max) := by
  have hr := torque_meas_raw_range f
  have hpost : (toyota_rx_hook G true s f).1.torque_meas =
      { update_sample s.torque_meas
          ((torque_meas_raw f * s.toyota_dbc_eps_torque_factor).tdiv 100) with
        min := (update_sample s.torque_meas
          ((torque_meas_raw f * s.toyota_dbc_eps_torque_factor).tdiv 100)).min - 1
        max := (update_sample s.torque_meas
          ((torque_meas_raw f * s.toyota_dbc_eps_torque_factor).tdiv 100)).max + 1 } := by
    rw [rx_hook_eq, if_pos ⟨rfl, hbus⟩, hG, rx_update_torque_meas, if_pos haddr]
  have hs := update_sample_spec s.torque_meas
    ((torque_meas_raw f * s.toyota_dbc_eps_torque_factor).tdiv 100)
  rw [hpost]
  refine ⟨⟨?_, ?_⟩, hs.1, ?_, ?_, ?_, ?_, ?_, ?_⟩
  · nlinarith [hr.1, hr.2, hfac.1, hfac.2]
  · nlinarith [hr.1, hr.2, hfac.1, hfac.2]
  · intro v hv
    have := hs.2.1 v hv
    show _ - 1 + 1 ≤ v
    omega
  · show _ - 1 + 1 ∈ _
    rw [Int.sub_add_cancel]
    exact hs.2.2.1
  · intro v hv
    have := hs.2.2.2.1 v hv
    show v ≤ _ + 1 - 1
    omega
  · show _ + 1 - 1 ∈ _
    rw [Int.add_sub_cancel]
    exact hs.2.2.2.2
  · intro v hv
    have h1 := hs.2.1 v hv
    have h2 := hs.2.2.2.1 v hv
    constructor
    · show _ - 1 ≤ v
      omega
    · show v ≤ _ + 1
      omega
  · intro calls
    exact run_keeps_min_le_max G hG calls state0 (by decide)

/-- Witness of C20, with the modelled `generic_rx_checks`: with factor 66 the
raw torque -2 feeds the sample -1 (the quotient -132 / 100 truncated toward
zero), and the window becomes `[-1, 0, 0, 0, 0, 0]` with `min = -2` and
`max = 1`. -/
theorem rx_torque_feeds_padded_window_witness :
    torque_meas_raw ⟨0x260, 0, 8, [0, 0, 0, 0, 0, 255, 254, 0]⟩ = -2
    ∧ (toyota_rx_hook generic_rx_checks true { state0 with toyota_dbc_eps_torque_factor := 66 }
        ⟨0x260, 0, 8, [0, 0, 0, 0, 0, 255, 254, 0]⟩).1.torque_meas
      = { values := [-1, 0, 0, 0, 0, 0], min := -2, max := 1 }
    ∧ (toyota_rx_hook generic_rx_checks true { state0 with toyota_dbc_eps_torque_factor := 66 }
        ⟨0x260, 0, 8, [0, 0, 0, 0, 0, 255, 254, 0]⟩).1.torque_meas.values
      = (torque_meas_raw ⟨0x260, 0, 8, [0, 0, 0, 0, 0, 255, 254, 0]⟩ * 66).tdiv 100
          :: state0.torque_meas.values.take 5 :=
  ⟨by decide, by decide,
    (rx_torque_feeds_padded_window generic_rx_checks
      (fun b st => (generic_rx_checks_frame b st).2.2.2.2)
      { state0 with toyota_dbc_eps_torque_factor := 66 }
      ⟨0x260, 0, 8, [0, 0, 0, 0, 0, 255, 254, 0]⟩ rfl rfl (by decide)).2.1⟩

end Toyota
